import Mathlib

/-!
Verification of the `bevy_toolbox` procedural-macro crate (the DSL compiler in
`src/`: `lib.rs`, `spawn.rs`, `value.rs`, `color.rs`, `edges.rs`, `turns.rs`).

The crate is a compile-time token-stream-to-token-stream transform.  We embed
it shallowly:

* proc-macro token streams become `List Tok`, where `Tok` mirrors the
  proc-macro token kinds (identifier, keyword, literal, punctuation, delimited
  group).  Keywords get their own constructor because `syn`'s `peek(Ident)`
  does not match Rust keywords.  Source spans are not modelled; every claim
  under consideration is about token content, error-message text or the
  call-site/stream distinction, which is kept as `ErrAnchor`.
* `f32` component arithmetic of the color and value parsers is modelled in ℚ.
  All numeric computations performed by the code on these components are exact
  products of small integers followed by one division, and every claim
  compares results of identical operation sequences, so equalities and
  inequalities of results transfer verbatim.
* fallible parsing becomes `Except Err (α × List Tok)` in state-passing style
  (`syn`'s `ParseStream` consumes from the front).
* the recursive-descent spawn parser takes a fuel argument (first argument,
  decremented once at entry of every parser in the mutual family).  Fuel only
  models the host call-stack bound; every theorem either quantifies over the
  fuel or supplies an explicitly sufficient amount.
-/

namespace BevyToolbox

/-- Delimiter of a proc-macro group token: `(...)`, `[...]`, `{...}`. -/
inductive Delim where
  | paren
  | bracket
  | brace
deriving DecidableEq

/-- Rust keywords that occur in the DSL grammar or in generated code.  `syn`
treats keywords as distinct from identifiers (`peek(Ident)` is false on them),
so they get their own token constructor. -/
inductive Kw where
  | kIf
  | kElse
  | kLet
  | kFor
  | kWhile
  | kIn
  | kBreak
  | kContinue
  | kMut
  | kUse
  | kEnum
  | kStruct
deriving DecidableEq

/-- A proc-macro token tree.  `litInt` keeps the digit text (the hex-color
parser reads the literal's source text) together with its suffix (`10px` is a
single integer token with suffix `px`); `litFloat` keeps the numeric value (in
ℚ, see the header) and its suffix.  `litStr` only occurs in generated output
(doc strings). -/
inductive Tok where
  | ident (s : String)
  | kw (k : Kw)
  | litInt (text : String) (suffix : String)
  | litFloat (val : ℚ) (suffix : String)
  | litStr (s : String)
  | punct (c : Char)
  | group (d : Delim) (ts : List Tok)

/-- Where a compile error is anchored: `Span::call_site()` (used by the empty
input check in `apply`) or a position in the input stream (all parser errors;
individual stream positions are not distinguished). -/
inductive ErrAnchor where
  | callSite
  | stream
deriving DecidableEq

/-- A `syn::Error`: anchor plus message text. -/
structure Err where
  anchor : ErrAnchor
  msg : String
deriving DecidableEq

/-- Error at a stream position. -/
def streamErr (m : String) : Err := ⟨ .stream, m⟩

/-- Fuel exhaustion marker for the fuel-indexed spawn parser.  It models only
the host call-stack bound; with sufficient fuel it is never produced. -/
def fuelErr : Err := streamErr "out of fuel"

/-- Modelled from the spec: components, arguments, conditions, iterators are
"arbitrary opaque expressions ... passed through verbatim" (spec section 6),
parsed by the external host parser (`syn::Expr`), which is not code of this
repository.  Following the spec grammar, where every `EXPR` is followed by
`,`, `;`, a closing delimiter or a `\x7b...\x7d` block, we model an opaque
expression as the longest nonempty prefix containing no top-level `,`, `;` or
brace group. -/
def exprStop : Tok → Bool
  | .punct c => c = ',' || c = ';'
  | .group .brace _ => true
  | _ => false

/-- Modelled from the spec: the host expression parser (see `exprStop`). -/
def exprParse (input : List Tok) : Except Err (List Tok × List Tok) :=
  match input.takeWhile (fun t => ! exprStop t) with
  | [] => .error (streamErr "expected expression")
  | pre => .ok (pre, input.drop pre.length)

/-- Modelled from the spec: tokens at which a host pattern (`syn::Pat`,
external to this repository) ends in the DSL grammar: the `=` of
`if let`/`while let`, the `in` of `for`, or the body block. -/
def patStop : Tok → Bool
  | .punct c => c = '='
  | .kw .kIn => true
  | .group .brace _ => true
  | _ => false

/-- Modelled from the spec: the host pattern parser (see `patStop`). -/
def patParse (input : List Tok) : Except Err (List Tok × List Tok) :=
  match input.takeWhile (fun t => ! patStop t) with
  | [] => .error (streamErr "expected pattern")
  | pre => .ok (pre, input.drop pre.length)

/-- Numeric value of a decimal integer literal's digit text, mirroring
`base10_parse` on a `LitInt` (which parses the digits, excluding any suffix). -/
def decNat (s : String) : Option ℕ :=
  if s.data ≠ [] ∧ s.data.all Char.isDigit then
    some (s.data.foldl (fun acc c => 10 * acc + (c.toNat - 48)) 0)
  else none

/-! ## `value.rs` — the dimension-value parser (`v!`) -/

/-- The `Value` AST of `value.rs` (spans dropped; the `Percent` variant's two
spans collapse). -/
inductive Value where
  | auto
  | px (v : ℚ)
  | vw (v : ℚ)
  | vh (v : ℚ)
  | vMin (v : ℚ)
  | vMax (v : ℚ)
  | percent (v : ℚ)
  | exprPx (e : List Tok)
  | exprVw (e : List Tok)
  | exprVh (e : List Tok)
  | exprVMin (e : List Tok)
  | exprVMax (e : List Tok)
  | exprPercent (e : List Tok)

/-- The suffix match at the end of `Value::parse` (`match unit.as_str()`). -/
def valueUnit (v : ℚ) (sfx : String) (rest : List Tok) : Except Err (Value × List Tok) :=
  if sfx = "px" then .ok (.px v, rest)
  else if sfx = "vw" then .ok (.vw v, rest)
  else if sfx = "vh" then .ok (.vh v, rest)
  else if sfx = "vmin" then .ok (.vMin v, rest)
  else if sfx = "vmax" then .ok (.vMax v, rest)
  else .error (streamErr "Invalid unit, expected px, vw, vh, vmin, vmax or %")

/-- The numeric-literal tail of `Value::parse`: an empty suffix followed by
`%` yields `Percent`, otherwise the suffix is matched as a unit. -/
def valueNum (v : ℚ) (sfx : String) (rest : List Tok) : Except Err (Value × List Tok) :=
  match rest with
  | .punct '%' :: rest2 => if sfx = "" then .ok (.percent v, rest2) else valueUnit v sfx rest
  | _ => valueUnit v sfx rest

/-- `Value::parse` of `value.rs`. -/
def Value.parse (input : List Tok) : Except Err (Value × List Tok) :=
  match input with
  | .ident s :: rest =>
    if s = "auto" then .ok (.auto, rest) else .error (streamErr "Invalid value")
  | .punct '@' :: rest => .ok (.auto, rest)
  | .group .brace content :: rest =>
    match rest with
    | .punct '%' :: rest2 => .ok (.exprPercent content, rest2)
    | .ident u :: rest2 =>
      if u = "px" then .ok (.exprPx content, rest2)
      else if u = "vw" then .ok (.exprVw content, rest2)
      else if u = "vh" then .ok (.exprVh content, rest2)
      else if u = "vmin" then .ok (.exprVMin content, rest2)
      else if u = "vmax" then .ok (.exprVMax content, rest2)
      else .error (streamErr "Invalid unit, expected px, vw, vh, vmin, vmax or %")
    | _ => .error (streamErr "Expected unit, expected px, vw, vh, vmin, vmax or %")
  | .litFloat v sfx :: rest => valueNum v sfx rest
  | .litInt t sfx :: rest =>
    match decNat t with
    | some n => valueNum (n : ℚ) sfx rest
    | none => .error (streamErr "invalid integer literal")
  | _ => .error (streamErr "Expected float, int or \x27\x7b\x27")

/-- The token list `bevy::ui::Val::NAME`. -/
def valPath (nm : String) : List Tok :=
  [ .ident "bevy", .punct ':', .punct ':', .ident "ui", .punct ':', .punct ':',
    .ident "Val", .punct ':', .punct ':', .ident nm]

/-- `Generate for Value` of `value.rs`.  Interpolated `f32` values are emitted
by `quote` as `f32`-suffixed literals. -/
def Value.generate : Value → List Tok
  | .auto => valPath "Auto"
  | .px v => valPath "Px" ++ [ .group .paren [ .litFloat v "f32"]]
  | .vw v => valPath "Vw" ++ [ .group .paren [ .litFloat v "f32"]]
  | .vh v => valPath "Vh" ++ [ .group .paren [ .litFloat v "f32"]]
  | .vMin v => valPath "VMin" ++ [ .group .paren [ .litFloat v "f32"]]
  | .vMax v => valPath "VMax" ++ [ .group .paren [ .litFloat v "f32"]]
  | .exprPx e => valPath "Px" ++ [ .group .paren [ .group .brace e]]
  | .exprVw e => valPath "Vw" ++ [ .group .paren [ .group .brace e]]
  | .exprVh e => valPath "Vh" ++ [ .group .paren [ .group .brace e]]
  | .exprVMin e => valPath "VMin" ++ [ .group .paren [ .group .brace e]]
  | .exprVMax e => valPath "VMax" ++ [ .group .paren [ .group .brace e]]
  | .exprPercent e => valPath "Percent" ++ [ .group .paren [ .group .brace e]]
  | .percent v =>
    [ .group .brace (valPath "Percent" ++ [ .punct ';'] ++ valPath "Percent" ++
        [ .group .paren [ .litFloat v "f32"]])]

/-- `Value::generate_default`: `bevy::ui::Val::default()`. -/
def valueGenerateDefault : List Tok :=
  [ .ident "bevy", .punct ':', .punct ':', .ident "ui", .punct ':', .punct ':',
    .ident "Val", .punct ':', .punct ':', .ident "default", .group .paren []]

/-! ## `lib.rs` — `MightOmit` and the macro driver -/

/-- `MightOmit<T>` of `lib.rs` (also standing in for the `ValueOrOmit` item
type that `turns.rs` imports; that alias is not present under `src/`, and per
the spec each slot is "a `ValueOrOmit` (Dimension or omit-sentinel)", i.e.
exactly `MightOmit<Value>`).  The omit span is dropped. -/
inductive MightOmit (T : Type) where
  | value (t : T)
  | omit

/-- `Parse for MightOmit<T>`: a `_` token or a `T`. -/
def MightOmit.parse {T : Type} (p : List Tok → Except Err (T × List Tok))
    (input : List Tok) : Except Err (MightOmit T × List Tok) :=
  match input with
  | .punct '_' :: rest => .ok (.omit, rest)
  | ts =>
    match p ts with
    | .error e => .error e
    | .ok (v, r) => .ok (.value v, r)

/-- `Generate for MightOmit<T>`. -/
def MightOmit.generate {T : Type} (gen : T → List Tok) (genDefault : List Tok) :
    MightOmit T → List Tok
  | .value t => gen t
  | .omit => genDefault

/-- Item parser used by `Edges::parse` and `Turns::parse`. -/
def vooParse (input : List Tok) : Except Err (MightOmit Value × List Tok) :=
  MightOmit.parse Value.parse input

/-! ## `edges.rs` and `turns.rs` -/

/-- `Edges` of `edges.rs` (four `MightOmit<Value>` slots). -/
structure Edges where
  top : MightOmit Value
  right : MightOmit Value
  bottom : MightOmit Value
  left : MightOmit Value

/-- `Turns` of `turns.rs` (four corner slots). -/
structure Turns where
  top_left : MightOmit Value
  top_right : MightOmit Value
  bottom_right : MightOmit Value
  bottom_left : MightOmit Value

/-- The value-collection loop shared verbatim by `Edges::parse` and
`Turns::parse`: `while !input.is_empty() && values.len() < 4 \x7b push \x7d`.
The fuel argument only bounds the iteration count; since every iteration
appends one value and the loop stops at four values, fuel 5 is always
sufficient (see `Edges.parse`). -/
def collectVoo : ℕ → List Tok → List (MightOmit Value) →
    Except Err (List (MightOmit Value) × List Tok)
  | 0, _, _ => .error fuelErr
  | n + 1, input, values =>
    if input.isEmpty ∨ 4 ≤ values.length then .ok (values, input)
    else
      match vooParse input with
      | .error e => .error e
      | .ok (v, rest) => collectVoo n rest (values ++ [v])

/-- `Edges::parse` of `edges.rs`: collect between one and four
value-or-underscore items, demand the input is exhausted, then expand by the
CSS shorthand table. -/
def Edges.parse (input : List Tok) : Except Err Edges :=
  match collectVoo 5 input [] with
  | .error e => .error e
  | .ok (values, rest) =>
    if ¬ rest.isEmpty ∨ values.isEmpty then
      .error (streamErr "Expected 1-4 value or \x27_\x27")
    else
      match values with
      | [v1] => .ok ⟨v1, v1, v1, v1⟩
      | [v1, v2] => .ok ⟨v1, v2, v1, v2⟩
      | [v1, v2, v3] => .ok ⟨v1, v2, v3, v2⟩
      | [v1, v2, v3, v4] => .ok ⟨v1, v2, v3, v4⟩
      | _ => .error (streamErr "unreachable")

/-- `Turns::parse` of `turns.rs`: same collection loop, corner expansion
table as written in the source (`[v1, v2, v3]` fills `top_left := v1`,
`top_right := v2`, `bottom_right := v3`, `bottom_left := v3`). -/
def Turns.parse (input : List Tok) : Except Err Turns :=
  match collectVoo 5 input [] with
  | .error e => .error e
  | .ok (values, rest) =>
    if ¬ rest.isEmpty ∨ values.isEmpty then
      .error (streamErr "Expected 1-4 value or \x27_\x27")
    else
      match values with
      | [v1] => .ok ⟨v1, v1, v1, v1⟩
      | [v1, v2] => .ok ⟨v1, v1, v2, v2⟩
      | [v1, v2, v3] => .ok ⟨v1, v2, v3, v3⟩
      | [v1, v2, v3, v4] => .ok ⟨v1, v2, v3, v4⟩
      | _ => .error (streamErr "unreachable")

/-- One `struct NAME ;` marker emitted by `Edges::generate` (they carry the
slot spans in the source; spans are dropped here). -/
def edgesMarker (nm : String) : List Tok :=
  [ .kw .kStruct, .ident nm, .punct ';']

/-- Generated code of one `MightOmit<Value>` slot. -/
def vooGenerate : MightOmit Value → List Tok :=
  MightOmit.generate Value.generate valueGenerateDefault

/-- `Generate for Edges` of `edges.rs`: the four span-carrying markers then
the `bevy::ui::UiRect` record expression, in one brace group. -/
def Edges.generate (e : Edges) : List Tok :=
  [ .group .brace
      (edgesMarker "Top" ++ edgesMarker "Right" ++ edgesMarker "Bottom" ++
       edgesMarker "Left" ++
       [ .ident "bevy", .punct ':', .punct ':', .ident "ui", .punct ':', .punct ':',
         .ident "UiRect",
         .group .brace
           ([ .ident "top", .punct ':'] ++ vooGenerate e.top ++ [ .punct ','] ++
            [ .ident "right", .punct ':'] ++ vooGenerate e.right ++ [ .punct ','] ++
            [ .ident "bottom", .punct ':'] ++ vooGenerate e.bottom ++ [ .punct ','] ++
            [ .ident "left", .punct ':'] ++ vooGenerate e.left ++ [ .punct ','])])]

/-- A sequence of value-or-underscore items: `VooChain ts rest vs` states that
starting from stream `ts`, repeatedly running the item parser yields the items
`vs` and leaves `rest`. -/
inductive VooChain : List Tok → List Tok → List (MightOmit Value) → Prop where
  | nil (ts : List Tok) : VooChain ts ts []
  | cons {ts mid rest : List Tok} {v : MightOmit Value} {vs : List (MightOmit Value)}
      (h : vooParse ts = .ok (v, mid)) (hc : VooChain mid rest vs) :
      VooChain ts rest (v :: vs)

theorem vooParse_ne_nil {v : MightOmit Value} {r : List Tok}
    (h : vooParse [] = .ok (v, r)) : False := by
  simp [vooParse, MightOmit.parse, Value.parse] at h

theorem collectVoo_step {n : ℕ} {ts rest : List Tok} {v : MightOmit Value}
    {acc : List (MightOmit Value)} (hlen : acc.length < 4)
    (h : vooParse ts = .ok (v, rest)) :
    collectVoo (n + 1) ts acc = collectVoo n rest (acc ++ [v]) := by
  have hne : ts ≠ [] := by
    intro hday
    exact vooParse_ne_nil (hday ▸ h)
  rw [collectVoo]
  rw [if_neg (by simp [List.isEmpty_iff, hne]; omega)]
  rw [h]

theorem collectVoo_chain {n : ℕ} {ts rest : List Tok}
    {acc vals : List (MightOmit Value)}
    (h : collectVoo n ts acc = .ok (vals, rest)) :
    ∃ vs, vals = acc ++ vs ∧ VooChain ts rest vs := by
  induction n generalizing ts acc with
  | zero => simp [collectVoo, fuelErr] at h
  | succ n ih =>
    rw [collectVoo] at h
    by_cases hc : ts.isEmpty ∨ 4 ≤ acc.length
    · rw [if_pos hc] at h
      obtain ⟨rfl, rfl⟩ : acc = vals ∧ ts = rest := by
        simpa using h
      exact ⟨[], by simp, .nil ts⟩
    · rw [if_neg hc] at h
      cases hp : vooParse ts with
      | error e => rw [hp] at h; simp at h
      | ok vr =>
        obtain ⟨v, mid⟩ := vr
        rw [hp] at h
        obtain ⟨vs, hv, hchain⟩ := ih h
        exact ⟨v :: vs, by simp [hv], .cons hp hchain⟩

/-! ## The macro driver `apply` of `lib.rs` -/

/-- `syn`'s `Parser::parse` on a whole token stream: run the parser and demand
that the entire input was consumed. -/
def parseFull {α : Type} (p : List Tok → Except Err (α × List Tok))
    (input : List Tok) : Except Err α :=
  match p input with
  | .error e => .error e
  | .ok (a, []) => .ok a
  | .ok (_, _ :: _) => .error (streamErr "unexpected token")

/-- The `apply` driver of `lib.rs`: empty input either expands to nothing
(`allow_empty`, used by `spawn`) or is the call-site-anchored hard error; any
other input is parsed and generated (`to_compile_error` is modelled as the
`Except.error` case). -/
def applyMacro (run : List Tok → Except Err (List Tok)) (allowEmpty : Bool)
    (input : List Tok) : Except Err (List Tok) :=
  if input.isEmpty then
    if allowEmpty then .ok []
    else .error ⟨ .callSite, "This macro can\x27t be called without any input"⟩
  else run input

/-- The `v` entry point of `lib.rs`. -/
def vMacro (input : List Tok) : Except Err (List Tok) :=
  applyMacro (fun ts =>
    match parseFull Value.parse ts with
    | .error e => .error e
    | .ok v => .ok (Value.generate v)) false input

/-- The `e` entry point of `lib.rs`.  `Edges::parse` already demands an empty
remainder, so it is its own full parse. -/
def eMacro (input : List Tok) : Except Err (List Tok) :=
  applyMacro (fun ts =>
    match Edges.parse ts with
    | .error e => .error e
    | .ok v => .ok (Edges.generate v)) false input

/-! ## Claims C1, C4, C9 — the Edges/Turns shorthand engine -/

/-- Claim C1, counterexample: for the three-value Turns input `1px 2px 3px`
the parser assigns `bottom_right := v3` (not `v2` as the claim states): the
parsed record's `bottom_right` slot differs from the claimed value `v2`. -/
theorem turns_three_value_claim_false :
    Turns.parse [ .litInt "1" "px", .litInt "2" "px", .litInt "3" "px"] =
      .ok ⟨ .value (.px 1), .value (.px 2), .value (.px 3), .value (.px 3)⟩ ∧
    (MightOmit.value (Value.px 3) ≠ MightOmit.value (Value.px 2)) := by
  constructor
  · rfl
  · intro h
    injection h with h2
    injection h2 with h3
    norm_num at h3

/-- Claim C1 (amended): for every valid three-value Turns input `v1 v2 v3`
the parser assigns `top_left := v1`, `top_right := v2`, and pairs the third
and fourth slots: `bottom_right := v3` and `bottom_left := v3`. -/
theorem turns_three_value_expansion (ts : List Tok) (v1 v2 v3 : MightOmit Value)
    (h : VooChain ts [] [v1, v2, v3]) :
    Turns.parse ts = .ok ⟨v1, v2, v3, v3⟩ := by
  cases h with
  | cons h1 hc =>
  cases hc with
  | cons h2 hc2 =>
  cases hc2 with
  | cons h3 hc3 =>
  cases hc3 with
  | nil =>
  rw [Turns.parse, collectVoo_step (by simp) h1, collectVoo_step (by simp) h2,
    collectVoo_step (by simp) h3, collectVoo]
  simp

/-- Claim C1, witness for the amended theorem at `1px 2px 3px`. -/
theorem turns_three_value_expansion_witness :
    Turns.parse [ .litInt "1" "px", .litInt "2" "px", .litInt "3" "px"] =
      .ok ⟨ .value (.px 1), .value (.px 2), .value (.px 3), .value (.px 3)⟩ :=
  turns_three_value_expansion _ _ _ _
    (VooChain.cons (by rfl) (VooChain.cons (by rfl)
      (VooChain.cons (by rfl) (VooChain.nil []))))

/-- Claim C4: the CSS shorthand table of `Edges::parse` — one value fills all
four slots, two values give `top = bottom = v1` and `right = left = v2`,
three values give `top = v1`, `right = left = v2`, `bottom = v3`, four values
are positional; and the quoted concrete equalities (with the values written as
valid dimension literals). -/
theorem edges_shorthand_table :
    (∀ ts v1, VooChain ts [] [v1] →
      Edges.parse ts = .ok ⟨v1, v1, v1, v1⟩) ∧
    (∀ ts v1 v2, VooChain ts [] [v1, v2] →
      Edges.parse ts = .ok ⟨v1, v2, v1, v2⟩) ∧
    (∀ ts v1 v2 v3, VooChain ts [] [v1, v2, v3] →
      Edges.parse ts = .ok ⟨v1, v2, v3, v2⟩) ∧
    (∀ ts v1 v2 v3 v4, VooChain ts [] [v1, v2, v3, v4] →
      Edges.parse ts = .ok ⟨v1, v2, v3, v4⟩) ∧
    Edges.parse [ .litInt "10" "px"] =
      Edges.parse [ .litInt "10" "px", .litInt "10" "px", .litInt "10" "px",
        .litInt "10" "px"] ∧
    Edges.parse [ .litInt "1" "px", .litInt "2" "px"] =
      Edges.parse [ .litInt "1" "px", .litInt "2" "px", .litInt "1" "px",
        .litInt "2" "px"] ∧
    Edges.parse [ .litInt "1" "px", .litInt "2" "px", .litInt "3" "px"] =
      Edges.parse [ .litInt "1" "px", .litInt "2" "px", .litInt "3" "px",
        .litInt "2" "px"] := by
  refine ⟨?_, ?_, ?_, ?_, by rfl, by rfl, by rfl⟩
  · intro ts v1 h
    cases h with
    | cons h1 hc =>
    cases hc with
    | nil =>
    rw [Edges.parse, collectVoo_step (by simp) h1, collectVoo]
    simp
  · intro ts v1 v2 h
    cases h with
    | cons h1 hc =>
    cases hc with
    | cons h2 hc2 =>
    cases hc2 with
    | nil =>
    rw [Edges.parse, collectVoo_step (by simp) h1, collectVoo_step (by simp) h2,
      collectVoo]
    simp
  · intro ts v1 v2 v3 h
    cases h with
    | cons h1 hc =>
    cases hc with
    | cons h2 hc2 =>
    cases hc2 with
    | cons h3 hc3 =>
    cases hc3 with
    | nil =>
    rw [Edges.parse, collectVoo_step (by simp) h1, collectVoo_step (by simp) h2,
      collectVoo_step (by simp) h3, collectVoo]
    simp
  · intro ts v1 v2 v3 v4 h
    cases h with
    | cons h1 hc =>
    cases hc with
    | cons h2 hc2 =>
    cases hc2 with
    | cons h3 hc3 =>
    cases hc3 with
    | cons h4 hc4 =>
    cases hc4 with
    | nil =>
    rw [Edges.parse, collectVoo_step (by simp) h1, collectVoo_step (by simp) h2,
      collectVoo_step (by simp) h3, collectVoo_step (by simp) h4, collectVoo]
    simp

/-- Claim C4, witness: the three-value table instance at `1px 2px 3px`. -/
theorem edges_shorthand_table_witness :
    Edges.parse [ .litInt "1" "px", .litInt "2" "px", .litInt "3" "px"] =
      .ok ⟨ .value (.px 1), .value (.px 2), .value (.px 3), .value (.px 2)⟩ :=
  edges_shorthand_table.2.2.1 _ _ _ _
    (VooChain.cons (by rfl) (VooChain.cons (by rfl)
      (VooChain.cons (by rfl) (VooChain.nil []))))

/-- Claim C9: zero items (an empty stream) is a hard error, a fifth item is a
hard error, success implies the input decomposes into one to four
value-or-underscore items consuming the whole input, and the `e` entry point
rejects an empty invocation at the call site. -/
theorem edges_arity_bounds :
    Edges.parse [] = .error (streamErr "Expected 1-4 value or \x27_\x27") ∧
    (∀ ts rest v1 v2 v3 v4, VooChain ts rest [v1, v2, v3, v4] → rest ≠ [] →
      Edges.parse ts = .error (streamErr "Expected 1-4 value or \x27_\x27")) ∧
    (∀ ts e, Edges.parse ts = .ok e →
      ∃ vs, VooChain ts [] vs ∧ 1 ≤ vs.length ∧ vs.length ≤ 4) ∧
    eMacro [] = .error ⟨ .callSite, "This macro can\x27t be called without any input"⟩ := by
  refine ⟨by rfl, ?_, ?_, by rfl⟩
  · intro ts rest v1 v2 v3 v4 h hrest
    cases h with
    | cons h1 hc =>
    cases hc with
    | cons h2 hc2 =>
    cases hc2 with
    | cons h3 hc3 =>
    cases hc3 with
    | cons h4 hc4 =>
    cases hc4 with
    | nil =>
    rw [Edges.parse, collectVoo_step (by simp) h1, collectVoo_step (by simp) h2,
      collectVoo_step (by simp) h3, collectVoo_step (by simp) h4, collectVoo]
    rw [if_pos (by simp)]
    simp [List.isEmpty_iff, hrest]
  · intro ts e h
    rw [Edges.parse] at h
    cases hcv : collectVoo 5 ts [] with
    | error e2 => rw [hcv] at h; simp at h
    | ok pr =>
      obtain ⟨values, rest⟩ := pr
      rw [hcv] at h
      dsimp only at h
      by_cases hr : ¬ rest.isEmpty ∨ values.isEmpty
      · rw [if_pos hr] at h; simp at h
      · rw [if_neg hr] at h
        obtain ⟨vs, hveq, hchain⟩ := collectVoo_chain hcv
        simp only [List.nil_append] at hveq
        subst hveq
        have hrest : rest = [] := by
          rcases not_or.mp hr with ⟨ha, _⟩
          simpa [List.isEmpty_iff] using not_not.mp ha
        subst hrest
        refine ⟨values, hchain, ?_⟩
        rcases values with _ | ⟨a, _ | ⟨b, _ | ⟨c, _ | ⟨d, _ | ⟨e5, tl⟩⟩⟩⟩⟩ <;>
          simp at h ⊢

/-- Claim C9, witness: a five-item input `1px 2px 3px 4px 5px` (four chained
items leaving a nonempty remainder) is rejected. -/
theorem edges_arity_bounds_witness :
    Edges.parse [ .litInt "1" "px", .litInt "2" "px", .litInt "3" "px",
        .litInt "4" "px", .litInt "5" "px"] =
      .error (streamErr "Expected 1-4 value or \x27_\x27") :=
  edges_arity_bounds.2.1 _ [ .litInt "5" "px"] _ _ _ _
    (VooChain.cons (by rfl) (VooChain.cons (by rfl) (VooChain.cons (by rfl)
      (VooChain.cons (by rfl) (VooChain.nil _)))))
    (by simp)

/-! ## `color.rs` — the color parser (`c!`) -/

/-- Rust `char::is_ascii_hexdigit`. -/
def isAsciiHexdigit (c : Char) : Bool :=
  decide ((48 ≤ c.toNat ∧ c.toNat ≤ 57) ∨ (97 ≤ c.toNat ∧ c.toNat ≤ 102) ∨
    (65 ≤ c.toNat ∧ c.toNat ≤ 70))

/-- Rust `char::to_digit(16)`. -/
def toDigit16 (c : Char) : Option ℕ :=
  if 48 ≤ c.toNat ∧ c.toNat ≤ 57 then some (c.toNat - 48)
  else if 97 ≤ c.toNat ∧ c.toNat ≤ 102 then some (c.toNat - 87)
  else if 65 ≤ c.toNat ∧ c.toNat ≤ 70 then some (c.toNat - 55)
  else none

/-- Nibble expansion of the 3- and 4-digit hex forms:
`d as f32 * 0x11 as f32 / 0xff as f32`.  The digit is pre-validated, so the
`unwrap` (modelled by `getD`) cannot fail. -/
def nibbleVal (c : Char) : ℚ := (((toDigit16 c).getD 0 : ℚ) * 17) / 255

/-- Byte-pair value of the 6- and 8-digit hex forms:
`u8::from_str_radix(pair, 16) as f32 / 0xff as f32` on two pre-validated hex
digits. -/
def byteVal (c1 c2 : Char) : ℚ :=
  ((((toDigit16 c1).getD 0) * 16 + (toDigit16 c2).getD 0 : ℕ) : ℚ) / 255

/-- The `Color` AST of `color.rs` (spans dropped). -/
inductive Color where
  | srgba (noWrap : Bool) (c : ℚ × ℚ × ℚ × ℚ)
  | linearRgba (noWrap : Bool) (c : ℚ × ℚ × ℚ × ℚ)
  | hsla (noWrap : Bool) (c : ℚ × ℚ × ℚ × ℚ)
  | hsva (noWrap : Bool) (c : ℚ × ℚ × ℚ × ℚ)
  | hwba (noWrap : Bool) (c : ℚ × ℚ × ℚ × ℚ)
  | laba (noWrap : Bool) (c : ℚ × ℚ × ℚ × ℚ)
  | lcha (noWrap : Bool) (c : ℚ × ℚ × ℚ × ℚ)
  | oklaba (noWrap : Bool) (c : ℚ × ℚ × ℚ × ℚ)
  | oklcha (noWrap : Bool) (c : ℚ × ℚ × ℚ × ℚ)
  | xyza (noWrap : Bool) (c : ℚ × ℚ × ℚ × ℚ)
  | css (noWrap : Bool) (code : String) (c : ℚ × ℚ × ℚ × ℚ)
  | unfinished (nm : Option String)
deriving DecidableEq

/-- Alpha component of a parsed color (fourth numeric slot). -/
def alphaOf : Color → Option ℚ
  | .srgba _ c => some c.2.2.2
  | .linearRgba _ c => some c.2.2.2
  | .hsla _ c => some c.2.2.2
  | .hsva _ c => some c.2.2.2
  | .hwba _ c => some c.2.2.2
  | .laba _ c => some c.2.2.2
  | .lcha _ c => some c.2.2.2
  | .oklaba _ c => some c.2.2.2
  | .oklcha _ c => some c.2.2.2
  | .xyza _ c => some c.2.2.2
  | .css _ _ c => some c.2.2.2
  | .unfinished _ => none

/-- Hex branch of `Color::parse` (the code after `#`): validate that every
character is an ASCII hex digit, then dispatch on the digit count; anything
other than 3, 4, 6 or 8 digits is `"invalid hex color"`. -/
def hexColor (noWrap : Bool) (hex : List Char) : Except Err Color :=
  if hex.any (fun c => ! isAsciiHexdigit c) then .error (streamErr "invalid hex color")
  else
    match hex with
    | [r, g, b] => .ok (.srgba noWrap (nibbleVal r, nibbleVal g, nibbleVal b, 1))
    | [r, g, b, a] => .ok (.srgba noWrap (nibbleVal r, nibbleVal g, nibbleVal b, nibbleVal a))
    | [r1, r2, g1, g2, b1, b2] =>
      .ok (.srgba noWrap (byteVal r1 r2, byteVal g1 g2, byteVal b1 b2, 1))
    | [r1, r2, g1, g2, b1, b2, a1, a2] =>
      .ok (.srgba noWrap (byteVal r1 r2, byteVal g1 g2, byteVal b1 b2, byteVal a1 a2))
    | _ => .error (streamErr "invalid hex color")

/-- The ten color-space function names of `Color::parse`. -/
def spaceNames : List String :=
  ["srgb", "linear", "hsl", "hsv", "hwb", "lab", "lch", "oklab", "oklch", "xyz"]

/-- Element parser of the functional form: `parse_terminated`'s closure
accepts a float or integer literal and takes its `base10_parse` value (the
digits, excluding any suffix). -/
def numTok : Tok → Except Err ℚ
  | .litFloat v _ => .ok v
  | .litInt t _ =>
    match decNat t with
    | some n => .ok (n : ℚ)
    | none => .error (streamErr "invalid integer literal")
  | _ => .error (streamErr "expected float or integer")

/-- `parse_terminated(number, Token![,])` over a parenthesized group's
content: comma-separated numbers, optional trailing comma, possibly empty. -/
def numListParse : List Tok → Except Err (List ℚ)
  | [] => .ok []
  | t :: rest =>
    match numTok t with
    | .error e => .error e
    | .ok v =>
      match rest with
      | [] => .ok [v]
      | .punct ',' :: rest2 =>
        match numListParse rest2 with
        | .error e => .error e
        | .ok vs => .ok (v :: vs)
      | _ => .error (streamErr "expected comma")

/-- Functional-notation branch of `Color::parse`: demand a parenthesis, parse
the comma-separated numeric components, demand 3 or 4 of them, default the
missing alpha to `1.0`, and select the color-space constructor. -/
def funcColor (code : String) (noWrap : Bool) (input : List Tok) :
    Except Err (Color × List Tok) :=
  match input with
  | .group .paren content :: rest =>
    match numListParse content with
    | .error e => .error e
    | .ok comps =>
      if comps.length ≠ 3 ∧ comps.length ≠ 4 then
        .error (streamErr "expected 3 or 4 components")
      else
        let a := comps.getD 0 1
        let b := comps.getD 1 0
        let c := comps.getD 2 0
        let alpha := if comps.length = 4 then comps.getD 3 1 else 1
        if code = "srgb" then .ok (.srgba noWrap (a, b, c, alpha), rest)
        else if code = "linear" then .ok (.linearRgba noWrap (a, b, c, alpha), rest)
        else if code = "hsl" then .ok (.hsla noWrap (a, b, c, alpha), rest)
        else if code = "hsv" then .ok (.hsva noWrap (a, b, c, alpha), rest)
        else if code = "hwb" then .ok (.hwba noWrap (a, b, c, alpha), rest)
        else if code = "lab" then .ok (.laba noWrap (a, b, c, alpha), rest)
        else if code = "lch" then .ok (.lcha noWrap (a, b, c, alpha), rest)
        else if code = "oklab" then .ok (.oklaba noWrap (a, b, c, alpha), rest)
        else if code = "oklch" then .ok (.oklcha noWrap (a, b, c, alpha), rest)
        else if code = "xyz" then .ok (.xyza noWrap (a, b, c, alpha), rest)
        else .error (streamErr "unreachable")
  | _ => .error (streamErr "expected parenthesis")

/-- The named-color table of `Color::parse` (source lines 165-313): name,
doc-hex code (with its leading space, as written), and RGBA quadruple. -/
def cssColors : List (String × String × (ℚ × ℚ × ℚ × ℚ)) := [
  ("black", " #000000", (0.0, 0.0, 0.0, 1.0)),
  ("silver", " #c0c0c0", (0.7529411764705882, 0.7529411764705882, 0.7529411764705882, 1.0)),
  ("gray", " #808080", (0.5019607843137255, 0.5019607843137255, 0.5019607843137255, 1.0)),
  ("white", " #ffffff", (1.0, 1.0, 1.0, 1.0)),
  ("maroon", " #800000", (0.5019607843137255, 0.0, 0.0, 1.0)),
  ("red", " #ff0000", (1.0, 0.0, 0.0, 1.0)),
  ("purple", " #800080", (0.5019607843137255, 0.0, 0.5019607843137255, 1.0)),
  ("fuchsia", " #ff00ff", (1.0, 0.0, 1.0, 1.0)),
  ("green", " #008000", (0.0, 0.5019607843137255, 0.0, 1.0)),
  ("lime", " #00ff00", (0.0, 1.0, 0.0, 1.0)),
  ("olive", " #808000", (0.5019607843137255, 0.5019607843137255, 0.0, 1.0)),
  ("yellow", " #ffff00", (1.0, 1.0, 0.0, 1.0)),
  ("navy", " #000080", (0.0, 0.0, 0.5019607843137255, 1.0)),
  ("blue", " #0000ff", (0.0, 0.0, 1.0, 1.0)),
  ("teal", " #008080", (0.0, 0.5019607843137255, 0.5019607843137255, 1.0)),
  ("aqua", " #00ffff", (0.0, 1.0, 1.0, 1.0)),
  ("aliceblue", " #f0f8ff", (0.9411764705882353, 0.9725490196078431, 1.0, 1.0)),
  ("antiquewhite", " #faebd7", (0.9803921568627451, 0.9215686274509803, 0.8431372549019608, 1.0)),
  ("aquamarine", " #7fffd4", (0.4980392156862745, 1.0, 0.8313725490196079, 1.0)),
  ("azure", " #f0ffff", (0.9411764705882353, 1.0, 1.0, 1.0)),
  ("beige", " #f5f5dc", (0.9607843137254902, 0.9607843137254902, 0.8627450980392157, 1.0)),
  ("bisque", " #ffe4c4", (1.0, 0.8941176470588236, 0.7686274509803922, 1.0)),
  ("blanchedalmond", " #ffebcd", (1.0, 0.9215686274509803, 0.803921568627451, 1.0)),
  ("blueviolet", " #8a2be2", (0.5411764705882353, 0.16862745098039217, 0.8862745098039215, 1.0)),
  ("brown", " #a52a2a", (0.6470588235294118, 0.16470588235294117, 0.16470588235294117, 1.0)),
  ("burlywood", " #deb887", (0.8705882352941177, 0.7215686274509804, 0.5294117647058824, 1.0)),
  ("cadetblue", " #5f9ea0", (0.37254901960784315, 0.6196078431372549, 0.6274509803921569, 1.0)),
  ("chartreuse", " #7fff00", (0.4980392156862745, 1.0, 0.0, 1.0)),
  ("chocolate", " #d2691e", (0.8235294117647058, 0.4117647058823529, 0.11764705882352941, 1.0)),
  ("coral", " #ff7f50", (1.0, 0.4980392156862745, 0.3137254901960784, 1.0)),
  ("cornflowerblue", " #6495ed", (0.39215686274509803, 0.5843137254901961, 0.9294117647058824, 1.0)),
  ("cornsilk", " #fff8dc", (1.0, 0.9725490196078431, 0.8627450980392157, 1.0)),
  ("crimson", " #dc143c", (0.8627450980392157, 0.0784313725490196, 0.23529411764705882, 1.0)),
  ("cyan", " #00ffff", (0.0, 1.0, 1.0, 1.0)),
  ("darkblue", " #00008b", (0.0, 0.0, 0.5450980392156862, 1.0)),
  ("darkcyan", " #008b8b", (0.0, 0.5450980392156862, 0.5450980392156862, 1.0)),
  ("darkgoldenrod", " #b8860b", (0.7215686274509804, 0.5254901960784314, 0.043137254901960784, 1.0)),
  ("darkgray", " #a9a9a9", (0.6627450980392157, 0.6627450980392157, 0.6627450980392157, 1.0)),
  ("darkgreen", " #006400", (0.0, 0.39215686274509803, 0.0, 1.0)),
  ("darkgrey", " #a9a9a9", (0.6627450980392157, 0.6627450980392157, 0.6627450980392157, 1.0)),
  ("darkkhaki", " #bdb76b", (0.7411764705882353, 0.7176470588235294, 0.4196078431372549, 1.0)),
  ("darkmagenta", " #8b008b", (0.5450980392156862, 0.0, 0.5450980392156862, 1.0)),
  ("darkolivegreen", " #556b2f", (0.3333333333333333, 0.4196078431372549, 0.1843137254901961, 1.0)),
  ("darkorange", " #ff8c00", (1.0, 0.5490196078431373, 0.0, 1.0)),
  ("darkorchid", " #9932cc", (0.6, 0.19607843137254902, 0.8, 1.0)),
  ("darkred", " #8b0000", (0.5450980392156862, 0.0, 0.0, 1.0)),
  ("darksalmon", " #e9967a", (0.9137254901960784, 0.5882352941176471, 0.47843137254901963, 1.0)),
  ("darkseagreen", " #8fbc8f", (0.5607843137254902, 0.7372549019607844, 0.5607843137254902, 1.0)),
  ("darkslateblue", " #483d8b", (0.2823529411764706, 0.23921568627450981, 0.5450980392156862, 1.0)),
  ("darkslategray", " #2f4f4f", (0.1843137254901961, 0.30980392156862746, 0.30980392156862746, 1.0)),
  ("darkslategrey", " #2f4f4f", (0.1843137254901961, 0.30980392156862746, 0.30980392156862746, 1.0)),
  ("darkturquoise", " #00ced1", (0.0, 0.807843137254902, 0.8196078431372549, 1.0)),
  ("darkviolet", " #9400d3", (0.5803921568627451, 0.0, 0.8274509803921568, 1.0)),
  ("deeppink", " #ff1493", (1.0, 0.0784313725490196, 0.5764705882352941, 1.0)),
  ("deepskyblue", " #00bfff", (0.0, 0.7490196078431373, 1.0, 1.0)),
  ("dimgray", " #696969", (0.4117647058823529, 0.4117647058823529, 0.4117647058823529, 1.0)),
  ("dimgrey", " #696969", (0.4117647058823529, 0.4117647058823529, 0.4117647058823529, 1.0)),
  ("dodgerblue", " #1e90ff", (0.11764705882352941, 0.5647058823529412, 1.0, 1.0)),
  ("firebrick", " #b22222", (0.6980392156862745, 0.13333333333333333, 0.13333333333333333, 1.0)),
  ("floralwhite", " #fffaf0", (1.0, 0.9803921568627451, 0.9411764705882353, 1.0)),
  ("forestgreen", " #228b22", (0.13333333333333333, 0.5450980392156862, 0.13333333333333333, 1.0)),
  ("gainsboro", " #dcdcdc", (0.8627450980392157, 0.8627450980392157, 0.8627450980392157, 1.0)),
  ("ghostwhite", " #f8f8ff", (0.9725490196078431, 0.9725490196078431, 1.0, 1.0)),
  ("gold", " #ffd700", (1.0, 0.8431372549019608, 0.0, 1.0)),
  ("goldenrod", " #daa520", (0.8549019607843137, 0.6470588235294118, 0.12549019607843137, 1.0)),
  ("greenyellow", " #adff2f", (0.6784313725490196, 1.0, 0.1843137254901961, 1.0)),
  ("grey", " #808080", (0.5019607843137255, 0.5019607843137255, 0.5019607843137255, 1.0)),
  ("honeydew", " #f0fff0", (0.9411764705882353, 1.0, 0.9411764705882353, 1.0)),
  ("hotpink", " #ff69b4", (1.0, 0.4117647058823529, 0.7058823529411765, 1.0)),
  ("indianred", " #cd5c5c", (0.803921568627451, 0.3607843137254902, 0.3607843137254902, 1.0)),
  ("indigo", " #4b0082", (0.29411764705882354, 0.0, 0.5098039215686274, 1.0)),
  ("ivory", " #fffff0", (1.0, 1.0, 0.9411764705882353, 1.0)),
  ("khaki", " #f0e68c", (0.9411764705882353, 0.9019607843137255, 0.5490196078431373, 1.0)),
  ("lavender", " #e6e6fa", (0.9019607843137255, 0.9019607843137255, 0.9803921568627451, 1.0)),
  ("lavenderblush", " #fff0f5", (1.0, 0.9411764705882353, 0.9607843137254902, 1.0)),
  ("lawngreen", " #7cfc00", (0.48627450980392156, 0.9882352941176471, 0.0, 1.0)),
  ("lemonchiffon", " #fffacd", (1.0, 0.9803921568627451, 0.803921568627451, 1.0)),
  ("lightblue", " #add8e6", (0.6784313725490196, 0.8470588235294118, 0.9019607843137255, 1.0)),
  ("lightcoral", " #f08080", (0.9411764705882353, 0.5019607843137255, 0.5019607843137255, 1.0)),
  ("lightcyan", " #e0ffff", (0.8784313725490196, 1.0, 1.0, 1.0)),
  ("lightgoldenrodyellow", " #fafad2", (0.9803921568627451, 0.9803921568627451, 0.8235294117647058, 1.0)),
  ("lightgray", " #d3d3d3", (0.8274509803921568, 0.8274509803921568, 0.8274509803921568, 1.0)),
  ("lightgreen", " #90ee90", (0.5647058823529412, 0.9333333333333333, 0.5647058823529412, 1.0)),
  ("lightgrey", " #d3d3d3", (0.8274509803921568, 0.8274509803921568, 0.8274509803921568, 1.0)),
  ("lightpink", " #ffb6c1", (1.0, 0.7137254901960784, 0.7568627450980392, 1.0)),
  ("lightsalmon", " #ffa07a", (1.0, 0.6274509803921569, 0.47843137254901963, 1.0)),
  ("lightseagreen", " #20b2aa", (0.12549019607843137, 0.6980392156862745, 0.6666666666666666, 1.0)),
  ("lightskyblue", " #87cefa", (0.5294117647058824, 0.807843137254902, 0.9803921568627451, 1.0)),
  ("lightslategray", " #778899", (0.4666666666666667, 0.5333333333333333, 0.6, 1.0)),
  ("lightslategrey", " #778899", (0.4666666666666667, 0.5333333333333333, 0.6, 1.0)),
  ("lightsteelblue", " #b0c4de", (0.6901960784313725, 0.7686274509803922, 0.8705882352941177, 1.0)),
  ("lightyellow", " #ffffe0", (1.0, 1.0, 0.8784313725490196, 1.0)),
  ("limegreen", " #32cd32", (0.19607843137254902, 0.803921568627451, 0.19607843137254902, 1.0)),
  ("linen", " #faf0e6", (0.9803921568627451, 0.9411764705882353, 0.9019607843137255, 1.0)),
  ("magenta", " #ff00ff", (1.0, 0.0, 1.0, 1.0)),
  ("mediumaquamarine", " #66cdaa", (0.4, 0.803921568627451, 0.6666666666666666, 1.0)),
  ("mediumblue", " #0000cd", (0.0, 0.0, 0.803921568627451, 1.0)),
  ("mediumorchid", " #ba55d3", (0.7294117647058823, 0.3333333333333333, 0.8274509803921568, 1.0)),
  ("mediumpurple", " #9370db", (0.5764705882352941, 0.4392156862745098, 0.8588235294117647, 1.0)),
  ("mediumseagreen", " #3cb371", (0.23529411764705882, 0.7019607843137254, 0.44313725490196076, 1.0)),
  ("mediumslateblue", " #7b68ee", (0.4823529411764706, 0.40784313725490196, 0.9333333333333333, 1.0)),
  ("mediumspringgreen", " #00fa9a", (0.0, 0.9803921568627451, 0.6039215686274509, 1.0)),
  ("mediumturquoise", " #48d1cc", (0.2823529411764706, 0.8196078431372549, 0.8, 1.0)),
  ("mediumvioletred", " #c71585", (0.7803921568627451, 0.08235294117647059, 0.5215686274509804, 1.0)),
  ("midnightblue", " #191970", (0.09803921568627451, 0.09803921568627451, 0.4392156862745098, 1.0)),
  ("mintcream", " #f5fffa", (0.9607843137254902, 1.0, 0.9803921568627451, 1.0)),
  ("mistyrose", " #ffe4e1", (1.0, 0.8941176470588236, 0.8823529411764706, 1.0)),
  ("moccasin", " #ffe4b5", (1.0, 0.8941176470588236, 0.7098039215686275, 1.0)),
  ("navajowhite", " #ffdead", (1.0, 0.8705882352941177, 0.6784313725490196, 1.0)),
  ("oldlace", " #fdf5e6", (0.9921568627450981, 0.9607843137254902, 0.9019607843137255, 1.0)),
  ("olivedrab", " #6b8e23", (0.4196078431372549, 0.5568627450980392, 0.13725490196078433, 1.0)),
  ("orange", " #ffa500", (1.0, 0.6470588235294118, 0.0, 1.0)),
  ("orangered", " #ff4500", (1.0, 0.27058823529411763, 0.0, 1.0)),
  ("orchid", " #da70d6", (0.8549019607843137, 0.4392156862745098, 0.8392156862745098, 1.0)),
  ("palegoldenrod", " #eee8aa", (0.9333333333333333, 0.9098039215686274, 0.6666666666666666, 1.0)),
  ("palegreen", " #98fb98", (0.596078431372549, 0.984313725490196, 0.596078431372549, 1.0)),
  ("paleturquoise", " #afeeee", (0.6862745098039216, 0.9333333333333333, 0.9333333333333333, 1.0)),
  ("palevioletred", " #db7093", (0.8588235294117647, 0.4392156862745098, 0.5764705882352941, 1.0)),
  ("papayawhip", " #ffefd5", (1.0, 0.9372549019607843, 0.8352941176470589, 1.0)),
  ("peachpuff", " #ffdab9", (1.0, 0.8549019607843137, 0.7254901960784313, 1.0)),
  ("peru", " #cd853f", (0.803921568627451, 0.5215686274509804, 0.24705882352941178, 1.0)),
  ("pink", " #ffc0cb", (1.0, 0.7529411764705882, 0.796078431372549, 1.0)),
  ("plum", " #dda0dd", (0.8666666666666667, 0.6274509803921569, 0.8666666666666667, 1.0)),
  ("powderblue", " #b0e0e6", (0.6901960784313725, 0.8784313725490196, 0.9019607843137255, 1.0)),
  ("rebeccapurple", " #663399", (0.4, 0.2, 0.6, 1.0)),
  ("rosybrown", " #bc8f8f", (0.7372549019607844, 0.5607843137254902, 0.5607843137254902, 1.0)),
  ("royalblue", " #4169e1", (0.2549019607843137, 0.4117647058823529, 0.8823529411764706, 1.0)),
  ("saddlebrown", " #8b4513", (0.5450980392156862, 0.27058823529411763, 0.07450980392156863, 1.0)),
  ("salmon", " #fa8072", (0.9803921568627451, 0.5019607843137255, 0.4470588235294118, 1.0)),
  ("sandybrown", " #f4a460", (0.9568627450980393, 0.6431372549019608, 0.3764705882352941, 1.0)),
  ("seagreen", " #2e8b57", (0.1803921568627451, 0.5450980392156862, 0.3411764705882353, 1.0)),
  ("seashell", " #fff5ee", (1.0, 0.9607843137254902, 0.9333333333333333, 1.0)),
  ("sienna", " #a0522d", (0.6274509803921569, 0.3215686274509804, 0.17647058823529413, 1.0)),
  ("skyblue", " #87ceeb", (0.5294117647058824, 0.807843137254902, 0.9215686274509803, 1.0)),
  ("slateblue", " #6a5acd", (0.41568627450980394, 0.35294117647058826, 0.803921568627451, 1.0)),
  ("slategray", " #708090", (0.4392156862745098, 0.5019607843137255, 0.5647058823529412, 1.0)),
  ("slategrey", " #708090", (0.4392156862745098, 0.5019607843137255, 0.5647058823529412, 1.0)),
  ("snow", " #fffafa", (1.0, 0.9803921568627451, 0.9803921568627451, 1.0)),
  ("springgreen", " #00ff7f", (0.0, 1.0, 0.4980392156862745, 1.0)),
  ("steelblue", " #4682b4", (0.27450980392156865, 0.5098039215686274, 0.7058823529411765, 1.0)),
  ("tan", " #d2b48c", (0.8235294117647058, 0.7058823529411765, 0.5490196078431373, 1.0)),
  ("thistle", " #d8bfd8", (0.8470588235294118, 0.7490196078431373, 0.8470588235294118, 1.0)),
  ("tomato", " #ff6347", (1.0, 0.38823529411764707, 0.2784313725490196, 1.0)),
  ("turquoise", " #40e0d0", (0.25098039215686274, 0.8784313725490196, 0.8156862745098039, 1.0)),
  ("violet", " #ee82ee", (0.9333333333333333, 0.5098039215686274, 0.9333333333333333, 1.0)),
  ("wheat", " #f5deb3", (0.9607843137254902, 0.8705882352941177, 0.7019607843137254, 1.0)),
  ("whitesmoke", " #f5f5f5", (0.9607843137254902, 0.9607843137254902, 0.9607843137254902, 1.0)),
  ("yellowgreen", " #9acd32", (0.6039215686274509, 0.803921568627451, 0.19607843137254902, 1.0)),
  ("transparent", "transparent", (0.0, 0.0, 0.0, 0.0))
]

/-- `Color::parse` of `color.rs`: optional `!` (no-wrap), then a hex form, a
functional form, a named color, or the `Unfinished` placeholder (for unknown
identifiers the placeholder keeps the identifier; otherwise it is empty, and
in both cases parsing succeeds). -/
def Color.parse (input : List Tok) : Except Err (Color × List Tok) :=
  let p :=
    match input with
    | .punct '!' :: rest => (true, rest)
    | _ => (false, input)
  let noWrap := p.1
  match p.2 with
  | .punct '#' :: rest =>
    match rest with
    | .ident s :: rest2 =>
      (match hexColor noWrap s.data with
       | .error e => .error e
       | .ok c => .ok (c, rest2))
    | .litInt t sfx :: rest2 =>
      (match hexColor noWrap (t ++ sfx).data with
       | .error e => .error e
       | .ok c => .ok (c, rest2))
    | _ => .error (streamErr "expected hex color")
  | .ident s :: rest =>
    if s ∈ spaceNames then funcColor s noWrap rest
    else
      match cssColors.lookup s with
      | some (code, rgba) => .ok (.css noWrap code rgba, rest)
      | none => .ok (.unfinished (some s), rest)
  | ts => .ok (.unfinished none, ts)

/-- `use bevy::color::*;`. -/
def useColorToks : List Tok :=
  [ .kw .kUse, .ident "bevy", .punct ':', .punct ':', .ident "color",
    .punct ':', .punct ':', .punct '*', .punct ';']

/-- `NAME::new(r, g, b, a)`; `quote` renders interpolated `f32` values as
`f32`-suffixed literals. -/
def newCall (nm : String) (c : ℚ × ℚ × ℚ × ℚ) : List Tok :=
  [ .ident nm, .punct ':', .punct ':', .ident "new",
    .group .paren [ .litFloat c.1 "f32", .punct ',', .litFloat c.2.1 "f32",
      .punct ',', .litFloat c.2.2.1 "f32", .punct ',', .litFloat c.2.2.2 "f32"]]

/-- Doc text of the `ColorCode` marker emitted by the `Css` branch.  The host
`f32` `Display` formatting is modelled as rational rendering; no claim
depends on this text. -/
def cssDoc (code : String) (c : ℚ × ℚ × ℚ × ℚ) : String :=
  "**Hex** `" ++ code ++ "`\\\n**R**   `" ++ toString c.1 ++ "`\\\n**G**   `" ++
    toString c.2.1 ++ "`\\\n**B**   `" ++ toString c.2.2.1 ++ "`\\\n**A**   `" ++
    toString c.2.2.2 ++ "`"

/-- Variant names of the `PredefinedColor` enum emitted by the `Unfinished`
branch of `Color::generate` (source lines 411-560), transcribed independently
of the parse table. -/
def predefinedColorVariants : List String := [
  "black", "silver", "gray", "white", "maroon", "red",
  "purple", "fuchsia", "green", "lime", "olive", "yellow",
  "navy", "blue", "teal", "aqua", "aliceblue", "antiquewhite",
  "aquamarine", "azure", "beige", "bisque", "blanchedalmond", "blueviolet",
  "brown", "burlywood", "cadetblue", "chartreuse", "chocolate", "coral",
  "cornflowerblue", "cornsilk", "crimson", "cyan", "darkblue", "darkcyan",
  "darkgoldenrod", "darkgray", "darkgreen", "darkgrey", "darkkhaki", "darkmagenta",
  "darkolivegreen", "darkorange", "darkorchid", "darkred", "darksalmon", "darkseagreen",
  "darkslateblue", "darkslategray", "darkslategrey", "darkturquoise", "darkviolet", "deeppink",
  "deepskyblue", "dimgray", "dimgrey", "dodgerblue", "firebrick", "floralwhite",
  "forestgreen", "gainsboro", "ghostwhite", "gold", "goldenrod", "greenyellow",
  "grey", "honeydew", "hotpink", "indianred", "indigo", "ivory",
  "khaki", "lavender", "lavenderblush", "lawngreen", "lemonchiffon", "lightblue",
  "lightcoral", "lightcyan", "lightgoldenrodyellow", "lightgray", "lightgreen", "lightgrey",
  "lightpink", "lightsalmon", "lightseagreen", "lightskyblue", "lightslategray", "lightslategrey",
  "lightsteelblue", "lightyellow", "limegreen", "linen", "magenta", "mediumaquamarine",
  "mediumblue", "mediumorchid", "mediumpurple", "mediumseagreen", "mediumslateblue", "mediumspringgreen",
  "mediumturquoise", "mediumvioletred", "midnightblue", "mintcream", "mistyrose", "moccasin",
  "navajowhite", "oldlace", "olivedrab", "orange", "orangered", "orchid",
  "palegoldenrod", "palegreen", "paleturquoise", "palevioletred", "papayawhip", "peachpuff",
  "peru", "pink", "plum", "powderblue", "rebeccapurple", "rosybrown",
  "royalblue", "saddlebrown", "salmon", "sandybrown", "seagreen", "seashell",
  "sienna", "skyblue", "slateblue", "slategray", "slategrey", "snow",
  "springgreen", "steelblue", "tan", "thistle", "tomato", "turquoise",
  "violet", "wheat", "whitesmoke", "yellowgreen", "transparent"
]

/-- Function-style variants of the `PredefinedColor` enum (source lines
562-571). -/
def predefinedFnVariants : List String :=
  ["srgb", "linear", "hsl", "hsv", "hwb", "lab", "lch", "oklab", "oklch", "xyz"]

/-- Tokens of the fieldless enum variants: `name ,`. -/
def plainVariantToks (nms : List String) : List Tok :=
  (nms.map (fun nm => [Tok.ident nm, Tok.punct ','])).flatten

/-- Tokens of the function-style enum variants: `name (f32, f32, f32, f32) ,`. -/
def fnVariantToks (nms : List String) : List Tok :=
  (nms.map (fun nm =>
    [Tok.ident nm,
     Tok.group .paren
       [ .ident "f32", .punct ',', .ident "f32", .punct ',', .ident "f32",
         .punct ',', .ident "f32"],
     Tok.punct ','])).flatten

/-- Generated tokens of the `Unfinished` branch of `Color::generate`: the
`PredefinedColor` enum (every named color plus the ten color-space
constructors) followed by `PredefinedColor::` and the partial name, if any. -/
def unfinishedGen (nm : Option String) : List Tok :=
  [ .group .brace
      ([ .punct '#',
         .group .bracket [ .ident "allow", .group .paren [ .ident "non_camel_case_types"]],
         .kw .kEnum, .ident "PredefinedColor",
         .group .brace
           (plainVariantToks predefinedColorVariants ++
            fnVariantToks predefinedFnVariants),
         .ident "PredefinedColor", .punct ':', .punct ':'] ++
       (match nm with
        | some s => [Tok.ident s]
        | none => []))]

/-- Final wrapper of `Color::generate`: the bare color-space value under `!`,
otherwise `Color::KIND(value)`, in either case under `use bevy::color::*`. -/
def wrapColor (noWrap : Bool) (kind : List Tok) (value : List Tok) : List Tok :=
  if noWrap then [ .group .brace (useColorToks ++ value)]
  else
    [ .group .brace
        (useColorToks ++ [ .ident "Color", .punct ':', .punct ':'] ++ kind ++
         [ .group .paren value])]

/-- `Generate for Color` of `color.rs`. -/
def Color.generate : Color → List Tok
  | .srgba nw c => wrapColor nw [ .ident "Srgba"] (newCall "Srgba" c)
  | .linearRgba nw c => wrapColor nw [ .ident "LinearRgba"] (newCall "LinearRgba" c)
  | .hsla nw c => wrapColor nw [ .ident "Hsla"] (newCall "Hsla" c)
  | .hsva nw c => wrapColor nw [ .ident "Hsva"] (newCall "Hsva" c)
  | .hwba nw c => wrapColor nw [ .ident "Hwba"] (newCall "Hwba" c)
  | .laba nw c => wrapColor nw [ .ident "Laba"] (newCall "Laba" c)
  | .lcha nw c => wrapColor nw [ .ident "Lcha"] (newCall "Lcha" c)
  | .oklaba nw c => wrapColor nw [ .ident "Oklaba"] (newCall "Oklaba" c)
  | .oklcha nw c => wrapColor nw [ .ident "Oklcha"] (newCall "Oklcha" c)
  | .xyza nw c => wrapColor nw [ .ident "Xyza"] (newCall "Xyza" c)
  | .css nw code c =>
    wrapColor nw [ .ident "Srgba"]
      [ .group .brace
          ([ .punct '#',
             .group .bracket [ .ident "doc", .punct '=', .litStr (cssDoc code c)],
             .kw .kStruct, .ident "ColorCode", .punct ';'] ++ newCall "Srgba" c)]
  | .unfinished nm => unfinishedGen nm

/-- The `c` entry point of `lib.rs`. -/
def cMacro (input : List Tok) : Except Err (List Tok) :=
  applyMacro (fun ts =>
    match parseFull Color.parse ts with
    | .error e => .error e
    | .ok c => .ok (Color.generate c)) false input

/-! ## Claims C6, C7, C8 — the color parser -/

theorem toDigit16_isHex {c : Char} {d : ℕ} (h : toDigit16 c = some d) :
    isAsciiHexdigit c = true := by
  unfold toDigit16 at h
  unfold isAsciiHexdigit
  split_ifs at h <;> simp_all

theorem nibbleVal_of_digit {c : Char} {d : ℕ} (h : toDigit16 c = some d) :
    nibbleVal c = ((d : ℚ) * 17) / 255 := by
  simp [nibbleVal, h]

theorem byteVal_of_digits {c1 c2 : Char} {d1 d2 : ℕ}
    (h1 : toDigit16 c1 = some d1) (h2 : toDigit16 c2 = some d2) :
    byteVal c1 c2 = ((d1 * 16 + d2 : ℕ) : ℚ) / 255 := by
  simp [byteVal, h1, h2]

theorem nibble_eq_byte {c : Char} {d : ℕ} (h : toDigit16 c = some d) :
    nibbleVal c = byteVal c c := by
  simp [nibbleVal, byteVal, h]
  ring

theorem toLower_toNat_upper {c : Char} (h : 65 ≤ c.toNat ∧ c.toNat ≤ 90) :
    (Char.toLower c).toNat = c.toNat + 32 := by
  unfold Char.toLower
  rw [if_pos (by omega)]
  unfold Char.ofNat
  rw [dif_pos (Or.inl (by omega))]
  rfl

theorem toLower_eq_self {c : Char} (h : ¬ (65 ≤ c.toNat ∧ c.toNat ≤ 90)) :
    Char.toLower c = c := by
  unfold Char.toLower
  rw [if_neg (by omega)]

theorem toDigit16_toLower (c : Char) : toDigit16 (Char.toLower c) = toDigit16 c := by
  by_cases h : 65 ≤ c.toNat ∧ c.toNat ≤ 90
  · have ht := toLower_toNat_upper h
    unfold toDigit16
    rw [ht]
    split_ifs <;> first | rfl | omega
  · rw [toLower_eq_self h]

theorem isHex_toLower (c : Char) : isAsciiHexdigit (Char.toLower c) = isAsciiHexdigit c := by
  by_cases h : 65 ≤ c.toNat ∧ c.toNat ≤ 90
  · have ht := toLower_toNat_upper h
    unfold isAsciiHexdigit
    rw [ht]
    simp only [decide_eq_decide]
    omega
  · rw [toLower_eq_self h]

theorem nibbleVal_toLower (c : Char) : nibbleVal (Char.toLower c) = nibbleVal c := by
  simp [nibbleVal, toDigit16_toLower]

theorem byteVal_toLower (c1 c2 : Char) :
    byteVal (Char.toLower c1) (Char.toLower c2) = byteVal c1 c2 := by
  simp [byteVal, toDigit16_toLower]

/-- Claim C6: the 3-digit hex form expands each nibble `d` to `d * 17 / 255`
with alpha exactly `1.0` and equals the doubled 6-digit form; the 4-digit form
likewise equals the doubled 8-digit form; the 6-digit form has alpha exactly
`1.0`; and hex parsing is invariant under lowercasing the digits
(case-insensitivity). -/
theorem hex_color_equivalences :
    (∀ nw c1 c2 c3 d1 d2 d3, toDigit16 c1 = some d1 → toDigit16 c2 = some d2 →
      toDigit16 c3 = some d3 →
      hexColor nw [c1, c2, c3] =
        .ok (.srgba nw (((d1 : ℚ) * 17) / 255, ((d2 : ℚ) * 17) / 255,
          ((d3 : ℚ) * 17) / 255, 1)) ∧
      hexColor nw [c1, c2, c3] = hexColor nw [c1, c1, c2, c2, c3, c3]) ∧
    (∀ nw c1 c2 c3 c4 d1 d2 d3 d4, toDigit16 c1 = some d1 → toDigit16 c2 = some d2 →
      toDigit16 c3 = some d3 → toDigit16 c4 = some d4 →
      hexColor nw [c1, c2, c3, c4] =
        .ok (.srgba nw (((d1 : ℚ) * 17) / 255, ((d2 : ℚ) * 17) / 255,
          ((d3 : ℚ) * 17) / 255, ((d4 : ℚ) * 17) / 255)) ∧
      hexColor nw [c1, c2, c3, c4] = hexColor nw [c1, c1, c2, c2, c3, c3, c4, c4]) ∧
    (∀ nw c1 c2 c3 c4 c5 c6 d1 d2 d3 d4 d5 d6, toDigit16 c1 = some d1 →
      toDigit16 c2 = some d2 → toDigit16 c3 = some d3 → toDigit16 c4 = some d4 →
      toDigit16 c5 = some d5 → toDigit16 c6 = some d6 →
      hexColor nw [c1, c2, c3, c4, c5, c6] =
        .ok (.srgba nw (byteVal c1 c2, byteVal c3 c4, byteVal c5 c6, 1))) ∧
    (∀ nw cs, hexColor nw (cs.map Char.toLower) = hexColor nw cs) := by
  refine ⟨?_, ?_, ?_, ?_⟩
  · intro nw c1 c2 c3 d1 d2 d3 h1 h2 h3
    have e1 := toDigit16_isHex h1
    have e2 := toDigit16_isHex h2
    have e3 := toDigit16_isHex h3
    constructor
    · rw [hexColor, if_neg (by simp [e1, e2, e3])]
      simp [nibbleVal_of_digit h1, nibbleVal_of_digit h2, nibbleVal_of_digit h3]
    · rw [hexColor, if_neg (by simp [e1, e2, e3]),
        hexColor, if_neg (by simp [e1, e2, e3])]
      simp [nibble_eq_byte h1, nibble_eq_byte h2, nibble_eq_byte h3]
  · intro nw c1 c2 c3 c4 d1 d2 d3 d4 h1 h2 h3 h4
    have e1 := toDigit16_isHex h1
    have e2 := toDigit16_isHex h2
    have e3 := toDigit16_isHex h3
    have e4 := toDigit16_isHex h4
    constructor
    · rw [hexColor, if_neg (by simp [e1, e2, e3, e4])]
      simp [nibbleVal_of_digit h1, nibbleVal_of_digit h2, nibbleVal_of_digit h3,
        nibbleVal_of_digit h4]
    · rw [hexColor, if_neg (by simp [e1, e2, e3, e4]),
        hexColor, if_neg (by simp [e1, e2, e3, e4])]
      simp [nibble_eq_byte h1, nibble_eq_byte h2, nibble_eq_byte h3,
        nibble_eq_byte h4]
  · intro nw c1 c2 c3 c4 c5 c6 d1 d2 d3 d4 d5 d6 h1 h2 h3 h4 h5 h6
    have e1 := toDigit16_isHex h1
    have e2 := toDigit16_isHex h2
    have e3 := toDigit16_isHex h3
    have e4 := toDigit16_isHex h4
    have e5 := toDigit16_isHex h5
    have e6 := toDigit16_isHex h6
    rw [hexColor, if_neg (by simp [e1, e2, e3, e4, e5, e6])]
  · intro nw cs
    rcases cs with _ | ⟨x1, _ | ⟨x2, _ | ⟨x3, _ | ⟨x4, _ | ⟨x5, _ | ⟨x6, _ |
      ⟨x7, _ | ⟨x8, _ | ⟨x9, tl⟩⟩⟩⟩⟩⟩⟩⟩⟩ <;>
      simp [hexColor, isHex_toLower, nibbleVal_toLower, byteVal_toLower]

/-- Claim C6, witness: the first conjunct at `#aBc` (digits 10, 11, 12; mixed
case). -/
theorem hex_color_equivalences_witness :
    toDigit16 'a' = some 10 ∧ toDigit16 'B' = some 11 ∧ toDigit16 'c' = some 12 ∧
    (hexColor false ['a', 'B', 'c'] =
      .ok (.srgba false (((10 : ℚ) * 17) / 255, ((11 : ℚ) * 17) / 255,
        ((12 : ℚ) * 17) / 255, 1)) ∧
     hexColor false ['a', 'B', 'c'] = hexColor false ['a', 'a', 'B', 'B', 'c', 'c']) :=
  ⟨by decide, by decide, by decide,
    hex_color_equivalences.1 false 'a' 'B' 'c' 10 11 12 (by decide) (by decide)
      (by decide)⟩

/-- Claim C7: a functional color call with exactly three numeric components
emits alpha exactly `1.0`; with exactly four, alpha is exactly the fourth
component; any other component count is the `"expected 3 or 4 components"`
parse error. -/
theorem functional_color_alpha :
    (∀ sp content rest a b c, sp ∈ spaceNames →
      numListParse content = .ok [a, b, c] →
      ∃ col, Color.parse (.ident sp :: .group .paren content :: rest) =
          .ok (col, rest) ∧ alphaOf col = some 1) ∧
    (∀ sp content rest a b c d, sp ∈ spaceNames →
      numListParse content = .ok [a, b, c, d] →
      ∃ col, Color.parse (.ident sp :: .group .paren content :: rest) =
          .ok (col, rest) ∧ alphaOf col = some d) ∧
    (∀ sp content rest comps, sp ∈ spaceNames →
      numListParse content = .ok comps → comps.length ≠ 3 → comps.length ≠ 4 →
      Color.parse (.ident sp :: .group .paren content :: rest) =
        .error (streamErr "expected 3 or 4 components")) := by
  refine ⟨?_, ?_, ?_⟩
  · intro sp content rest a b c hsp hnum
    simp only [Color.parse]
    rw [if_pos hsp]
    rw [funcColor, hnum]
    dsimp only
    rw [if_neg (by simp)]
    simp [spaceNames] at hsp
    rcases hsp with rfl | rfl | rfl | rfl | rfl | rfl | rfl | rfl | rfl | rfl <;>
      exact ⟨_, rfl, rfl⟩
  · intro sp content rest a b c d hsp hnum
    simp only [Color.parse]
    rw [if_pos hsp]
    rw [funcColor, hnum]
    dsimp only
    rw [if_neg (by simp)]
    simp [spaceNames] at hsp
    rcases hsp with rfl | rfl | rfl | rfl | rfl | rfl | rfl | rfl | rfl | rfl <;>
      exact ⟨_, rfl, rfl⟩
  · intro sp content rest comps hsp hnum h3 h4
    simp only [Color.parse]
    rw [if_pos hsp]
    rw [funcColor, hnum]
    dsimp only
    rw [if_pos ⟨h3, h4⟩]

/-- Claim C7, witness: `hsl(1.0, 2.0, 3.0)` has alpha exactly `1.0`. -/
theorem functional_color_alpha_witness :
    ∃ col, Color.parse
        [ .ident "hsl",
          .group .paren [ .litFloat 1 "", .punct ',', .litFloat 2 "", .punct ',',
            .litFloat 3 ""]] = .ok (col, []) ∧ alphaOf col = some 1 :=
  functional_color_alpha.1 "hsl" _ [] 1 2 3 (by decide) (by rfl)

set_option maxRecDepth 8000

/-- Claim C8: an identifier that is neither a color-space function name nor a
recognized named color parses successfully to the `Unfinished` placeholder
carrying the identifier (not a parse error), and the variant list of the
`PredefinedColor` enum emitted for such placeholders is exactly the named
colors of the parse table followed by the ten color-space constructors. -/
theorem unknown_color_placeholder :
    (∀ s rest, s ∉ spaceNames → cssColors.lookup s = none →
      Color.parse (.ident s :: rest) = .ok (.unfinished (some s), rest)) ∧
    predefinedColorVariants ++ predefinedFnVariants =
      cssColors.map Prod.fst ++ spaceNames := by
  constructor
  · intro s rest hsp hcss
    simp only [Color.parse]
    rw [if_neg hsp, hcss]
  · decide

/-- Claim C8, witness: the unknown identifier `octarine`. -/
theorem unknown_color_placeholder_witness :
    Color.parse [ .ident "octarine"] = .ok (.unfinished (some "octarine"), []) :=
  unknown_color_placeholder.1 "octarine" [] (by decide) (by rfl)

/-! ## `spawn.rs` — the spawn DSL: AST -/

/-- `Spawner` of `spawn.rs`: a named binding or a bracketed expression. -/
inductive Spawner where
  | sIdent (s : String)
  | sExpr (e : List Tok)

/-- `Extension` of `spawn.rs` (with `MethodCall` inlined: name plus argument
expressions).  Expressions are opaque token lists. -/
inductive Extension where
  | observe (arg : List Tok)
  | methodCall (nm : String) (args : List (List Tok))
  | codeBlock (blk : List Tok)
  | unfinished (nm : Option String)

mutual
/-- `Flow<T>` of `spawn.rs`: the five control-flow constructs, generic over
the item type (instantiated at `Child` and `TopLevel` exactly as in the
source). -/
inductive Flow (T : Type) where
  | fIf (cond : List Tok) (body : List (Control T)) (els : Option (Flow T))
  | fIfLet (pat : List Tok) (cond : List Tok) (body : List (Control T))
      (els : Option (Flow T))
  | fFor (pat : List Tok) (iter : List Tok) (body : List (Control T))
  | fWhile (cond : List Tok) (body : List (Control T))
  | fWhileLet (pat : List Tok) (cond : List Tok) (body : List (Control T))
/-- `Control<T>` of `spawn.rs`: `break`, `continue`, or an item. -/
inductive Control (T : Type) where
  | brk
  | cont
  | item (t : T)
end

mutual
/-- `Definition` of `spawn.rs`: verbatim component tokens, extensions,
children groups. -/
inductive Definition where
  | mk (components : List Tok) (extensions : List Extension)
      (children : List Children)
/-- `Children` of `spawn.rs`: one bracketed children group. -/
inductive Children where
  | mk (cs : List Child)
/-- `Entity` of `spawn.rs`. -/
inductive Entity where
  | mk (nm : Option String) (defn : Definition)
/-- `Inserted` of `spawn.rs`. -/
inductive Inserted where
  | mk (base : String) (defn : Definition)
/-- `Parented` of `spawn.rs`. -/
inductive Parented where
  | mk (parent : String) (entity : Entity)
/-- `Child` of `spawn.rs`. -/
inductive Child where
  | entity (e : Entity)
  | inserted (i : Inserted)
  | flow (f : Flow Child)
  | codeBlock (blk : List Tok)
/-- `TopLevel` of `spawn.rs`: `Child` plus `Parented`. -/
inductive TopLevel where
  | entity (e : Entity)
  | parented (p : Parented)
  | inserted (i : Inserted)
  | flow (f : Flow TopLevel)
  | codeBlock (blk : List Tok)
end

/-- `Spawn` of `spawn.rs`. -/
structure Spawn where
  spawner : Spawner
  top_level : List TopLevel

/-! ## `spawn.rs` — the recursive-descent parser

Every function takes fuel as its first argument and decrements it once at
entry; all recursive calls run at the decremented fuel.  Statements about the
parser quantify over the fuel (the error paths settle at any positive fuel)
or supply an explicitly sufficient amount for concrete inputs. -/

mutual
/-- `Parse for TopLevel`: single- and double-token dispatch of `spawn.rs`. -/
def TopLevel.parse : ℕ → List Tok → Except Err (TopLevel × List Tok)
  | 0, _ => .error fuelErr
  | n + 1, input =>
    match input with
    | .group .paren _ :: _ =>
      (match Entity.parse n input with
       | .error e => .error e
       | .ok (en, rest) => .ok (.entity en, rest))
    | .group .brace blk :: rest => .ok (.codeBlock blk, rest)
    | .kw .kIf :: _ =>
      (match flowTParse n input with
       | .error e => .error e
       | .ok (f, rest) => .ok (.flow f, rest))
    | .kw .kFor :: _ =>
      (match flowTParse n input with
       | .error e => .error e
       | .ok (f, rest) => .ok (.flow f, rest))
    | .kw .kWhile :: _ =>
      (match flowTParse n input with
       | .error e => .error e
       | .ok (f, rest) => .ok (.flow f, rest))
    | .ident _ :: rest2 =>
      (match rest2 with
       | .group .paren _ :: _ =>
         (match Entity.parse n input with
          | .error e => .error e
          | .ok (en, rest) => .ok (.entity en, rest))
       | .punct '>' :: _ =>
         (match Parented.parse n input with
          | .error e => .error e
          | .ok (p, rest) => .ok (.parented p, rest))
       | .punct '+' :: _ =>
         (match Inserted.parse n input with
          | .error e => .error e
          | .ok (i, rest) => .ok (.inserted i, rest))
       | _ => .error (streamErr
           "Expected \x27>\x27 for parented, \x27+\x27 for inserted, or \x27()\x27 for entity"))
    | _ => .error (streamErr "Expected parented, inserted, flow statement or code block")

/-- `Parse for Child`: like `TopLevel` but `name >` is the hard error
`"Parented is not allowed as a child"`. -/
def Child.parse : ℕ → List Tok → Except Err (Child × List Tok)
  | 0, _ => .error fuelErr
  | n + 1, input =>
    match input with
    | .group .paren _ :: _ =>
      (match Entity.parse n input with
       | .error e => .error e
       | .ok (en, rest) => .ok (.entity en, rest))
    | .group .brace blk :: rest => .ok (.codeBlock blk, rest)
    | .kw .kIf :: _ =>
      (match flowCParse n input with
       | .error e => .error e
       | .ok (f, rest) => .ok (.flow f, rest))
    | .kw .kFor :: _ =>
      (match flowCParse n input with
       | .error e => .error e
       | .ok (f, rest) => .ok (.flow f, rest))
    | .kw .kWhile :: _ =>
      (match flowCParse n input with
       | .error e => .error e
       | .ok (f, rest) => .ok (.flow f, rest))
    | .ident _ :: rest2 =>
      (match rest2 with
       | .group .paren _ :: _ =>
         (match Entity.parse n input with
          | .error e => .error e
          | .ok (en, rest) => .ok (.entity en, rest))
       | .punct '+' :: _ =>
         (match Inserted.parse n input with
          | .error e => .error e
          | .ok (i, rest) => .ok (.inserted i, rest))
       | .punct '>' :: _ => .error (streamErr "Parented is not allowed as a child")
       | _ => .error (streamErr
           "Expected \x27+\x27 for inserted, or \x27()\x27 for entity"))
    | _ => .error (streamErr "Expected entity, inserted, flow statement or code block")

/-- `Parse for Entity`: optional name, then a definition. -/
def Entity.parse : ℕ → List Tok → Except Err (Entity × List Tok)
  | 0, _ => .error fuelErr
  | n + 1, input =>
    match input with
    | .ident s :: rest =>
      (match Definition.parse n rest with
       | .error e => .error e
       | .ok (d, r) => .ok (.mk (some s) d, r))
    | _ =>
      (match Definition.parse n input with
       | .error e => .error e
       | .ok (d, r) => .ok (.mk none d, r))

/-- `Parse for Parented`: name, `>`, entity. -/
def Parented.parse : ℕ → List Tok → Except Err (Parented × List Tok)
  | 0, _ => .error fuelErr
  | n + 1, input =>
    match input with
    | .ident s :: .punct '>' :: rest =>
      (match Entity.parse n rest with
       | .error e => .error e
       | .ok (en, r) => .ok (.mk s en, r))
    | .ident _ :: _ => .error (streamErr "expected greater-than token")
    | _ => .error (streamErr "expected identifier")

/-- `Parse for Inserted`: name, `+`, definition. -/
def Inserted.parse : ℕ → List Tok → Except Err (Inserted × List Tok)
  | 0, _ => .error fuelErr
  | n + 1, input =>
    match input with
    | .ident s :: .punct '+' :: rest =>
      (match Definition.parse n rest with
       | .error e => .error e
       | .ok (d, r) => .ok (.mk s d, r))
    | .ident _ :: _ => .error (streamErr "expected plus token")
    | _ => .error (streamErr "expected identifier")

/-- `Parse for Definition`: the parenthesized components, then the extension
loop, then the children loop. -/
def Definition.parse : ℕ → List Tok → Except Err (Definition × List Tok)
  | 0, _ => .error fuelErr
  | n + 1, input =>
    match input with
    | .group .paren comps :: rest =>
      (match extLoop n rest [] with
       | .error e => .error e
       | .ok (exts, rest1) =>
         match childrenLoop n rest1 [] with
         | .error e => .error e
         | .ok (chs, rest2) => .ok (.mk comps exts chs, rest2))
    | _ => .error (streamErr "Expected \x27(\x27 for definition")

/-- Extension loop of `Definition::parse`: while the next token is `.`, stop
if it is followed by `[` (children begin), otherwise consume one extension. -/
def extLoop : ℕ → List Tok → List Extension →
    Except Err (List Extension × List Tok)
  | 0, _, _ => .error fuelErr
  | n + 1, input, acc =>
    match input with
    | .punct '.' :: .group .bracket _ :: _ => .ok (acc, input)
    | .punct '.' :: _ =>
      (match Extension.parse n input with
       | .error e => .error e
       | .ok (ext, rest) => extLoop n rest (acc ++ [ext]))
    | _ => .ok (acc, input)

/-- Children loop of `Definition::parse`: while the next token is `.`, a `[`
must follow (one more children group); a `.` followed by anything else is the
hard ordering error. -/
def childrenLoop : ℕ → List Tok → List Children →
    Except Err (List Children × List Tok)
  | 0, _, _ => .error fuelErr
  | n + 1, input, acc =>
    match input with
    | .punct '.' :: rest =>
      (match rest with
       | .group .bracket _ :: _ =>
         (match Children.parse n rest with
          | .error e => .error e
          | .ok (g, rest2) => childrenLoop n rest2 (acc ++ [g]))
       | _ => .error (streamErr "Extensions cannot be chained after children group"))
    | _ => .ok (acc, input)

/-- `Parse for Extension`: consume the `.`, then dispatch — identifier plus
parenthesis is a method call, bare identifier is the `Unfinished`
placeholder, parenthesis is the observe shortcut, brace is a code block,
anything else is the empty `Unfinished` placeholder. -/
def Extension.parse : ℕ → List Tok → Except Err (Extension × List Tok)
  | 0, _ => .error fuelErr
  | n + 1, input =>
    match input with
    | .punct '.' :: rest =>
      (match rest with
       | .ident s :: .group .paren args :: rest2 =>
         (match exprListLoop n args with
          | .error e => .error e
          | .ok argList => .ok (.methodCall s argList, rest2))
       | .ident s :: rest2 => .ok (.unfinished (some s), rest2)
       | .group .paren content :: rest2 =>
         (match exprParse content with
          | .error e => .error e
          | .ok (arg, []) => .ok (.observe arg, rest2)
          | .ok (_, _ :: _) => .error (streamErr "unexpected token"))
       | .group .brace blk :: rest2 => .ok (.codeBlock blk, rest2)
       | _ => .ok (.unfinished none, rest))
    | _ => .error (streamErr "expected dot")

/-- `parse_terminated(Expr::parse, Token![,])` over a group's content. -/
def exprListLoop : ℕ → List Tok → Except Err (List (List Tok))
  | 0, _ => .error fuelErr
  | _ + 1, [] => .ok []
  | n + 1, ts =>
    match exprParse ts with
    | .error e => .error e
    | .ok (e, rest) =>
      match rest with
      | [] => .ok [e]
      | .punct ',' :: rest2 =>
        (match exprListLoop n rest2 with
         | .error e2 => .error e2
         | .ok es => .ok (e :: es))
      | _ => .error (streamErr "expected comma")

/-- `Parse for Children`: the bracketed group, whose content is consumed
entirely by the child loop. -/
def Children.parse : ℕ → List Tok → Except Err (Children × List Tok)
  | 0, _ => .error fuelErr
  | n + 1, input =>
    match input with
    | .group .bracket content :: rest =>
      (match childLoop n content [] with
       | .error e => .error e
       | .ok cs => .ok (.mk cs, rest))
    | _ => .error (streamErr "expected square brackets")

/-- Child loop of `Children::parse`: skip `;`, parse children until the group
content is exhausted. -/
def childLoop : ℕ → List Tok → List Child → Except Err (List Child)
  | 0, _, _ => .error fuelErr
  | _ + 1, [], acc => .ok acc
  | n + 1, .punct ';' :: rest, acc => childLoop n rest acc
  | n + 1, ts, acc =>
    match Child.parse n ts with
    | .error e => .error e
    | .ok (c, rest) => childLoop n rest (acc ++ [c])

/-- `Parse for Flow<Child>`: keyword dispatch with one-token lookahead for
`let`. -/
def flowCParse : ℕ → List Tok → Except Err (Flow Child × List Tok)
  | 0, _ => .error fuelErr
  | n + 1, input =>
    match input with
    | .kw .kIf :: .kw .kLet :: _ => ifLetCParse n input
    | .kw .kIf :: _ => ifCParse n input
    | .kw .kFor :: _ => forCParse n input
    | .kw .kWhile :: .kw .kLet :: _ => whileLetCParse n input
    | .kw .kWhile :: _ => whileCParse n input
    | _ => .error (streamErr "Expected flow statement")

/-- `Parse for If<Child>`. -/
def ifCParse : ℕ → List Tok → Except Err (Flow Child × List Tok)
  | 0, _ => .error fuelErr
  | n + 1, input =>
    match input with
    | .kw .kIf :: rest =>
      (match exprParse rest with
       | .error e => .error e
       | .ok (cond, rest1) =>
         match rest1 with
         | .group .brace body :: rest2 =>
           (match controlCLoop n body [] with
            | .error e => .error e
            | .ok items =>
              match rest2 with
              | .kw .kElse :: rest3 =>
                (match flowCParse n rest3 with
                 | .error e => .error e
                 | .ok (f, rest4) => .ok (.fIf cond items (some f), rest4))
              | _ => .ok (.fIf cond items none, rest2))
         | _ => .error (streamErr "expected curly braces"))
    | _ => .error (streamErr "expected if keyword")

/-- `Parse for IfLet<Child>`. -/
def ifLetCParse : ℕ → List Tok → Except Err (Flow Child × List Tok)
  | 0, _ => .error fuelErr
  | n + 1, input =>
    match input with
    | .kw .kIf :: .kw .kLet :: rest =>
      (match patParse rest with
       | .error e => .error e
       | .ok (pat, rest1) =>
         match rest1 with
         | .punct '=' :: rest2 =>
           (match exprParse rest2 with
            | .error e => .error e
            | .ok (cond, rest3) =>
              match rest3 with
              | .group .brace body :: rest4 =>
                (match controlCLoop n body [] with
                 | .error e => .error e
                 | .ok items =>
                   match rest4 with
                   | .kw .kElse :: rest5 =>
                     (match flowCParse n rest5 with
                      | .error e => .error e
                      | .ok (f, rest6) => .ok (.fIfLet pat cond items (some f), rest6))
                   | _ => .ok (.fIfLet pat cond items none, rest4))
              | _ => .error (streamErr "expected curly braces"))
         | _ => .error (streamErr "expected assignment"))
    | _ => .error (streamErr "expected if let")

/-- `Parse for For<Child>`. -/
def forCParse : ℕ → List Tok → Except Err (Flow Child × List Tok)
  | 0, _ => .error fuelErr
  | n + 1, input =>
    match input with
    | .kw .kFor :: rest =>
      (match patParse rest with
       | .error e => .error e
       | .ok (pat, rest1) =>
         match rest1 with
         | .kw .kIn :: rest2 =>
           (match exprParse rest2 with
            | .error e => .error e
            | .ok (iter, rest3) =>
              match rest3 with
              | .group .brace body :: rest4 =>
                (match controlCLoop n body [] with
                 | .error e => .error e
                 | .ok items => .ok (.fFor pat iter items, rest4))
              | _ => .error (streamErr "expected curly braces"))
         | _ => .error (streamErr "expected in keyword"))
    | _ => .error (streamErr "expected for keyword")

/-- `Parse for While<Child>`. -/
def whileCParse : ℕ → List Tok → Except Err (Flow Child × List Tok)
  | 0, _ => .error fuelErr
  | n + 1, input =>
    match input with
    | .kw .kWhile :: rest =>
      (match exprParse rest with
       | .error e => .error e
       | .ok (cond, rest1) =>
         match rest1 with
         | .group .brace body :: rest2 =>
           (match controlCLoop n body [] with
            | .error e => .error e
            | .ok items => .ok (.fWhile cond items, rest2))
         | _ => .error (streamErr "expected curly braces"))
    | _ => .error (streamErr "expected while keyword")

/-- `Parse for WhileLet<Child>`. -/
def whileLetCParse : ℕ → List Tok → Except Err (Flow Child × List Tok)
  | 0, _ => .error fuelErr
  | n + 1, input =>
    match input with
    | .kw .kWhile :: .kw .kLet :: rest =>
      (match patParse rest with
       | .error e => .error e
       | .ok (pat, rest1) =>
         match rest1 with
         | .punct '=' :: rest2 =>
           (match exprParse rest2 with
            | .error e => .error e
            | .ok (cond, rest3) =>
              match rest3 with
              | .group .brace body :: rest4 =>
                (match controlCLoop n body [] with
                 | .error e => .error e
                 | .ok items => .ok (.fWhileLet pat cond items, rest4))
              | _ => .error (streamErr "expected curly braces"))
         | _ => .error (streamErr "expected assignment"))
    | _ => .error (streamErr "expected while let")

/-- Body loop of the `Child`-flow constructs: skip `;`, parse `Control`
items until the braced content is exhausted. -/
def controlCLoop : ℕ → List Tok → List (Control Child) →
    Except Err (List (Control Child))
  | 0, _, _ => .error fuelErr
  | _ + 1, [], acc => .ok acc
  | n + 1, .punct ';' :: rest, acc => controlCLoop n rest acc
  | n + 1, ts, acc =>
    match controlCParse n ts with
    | .error e => .error e
    | .ok (c, rest) => controlCLoop n rest (acc ++ [c])

/-- `Parse for Control<Child>`. -/
def controlCParse : ℕ → List Tok → Except Err (Control Child × List Tok)
  | 0, _ => .error fuelErr
  | n + 1, input =>
    match input with
    | .kw .kBreak :: rest => .ok (.brk, rest)
    | .kw .kContinue :: rest => .ok (.cont, rest)
    | ts =>
      (match Child.parse n ts with
       | .error e => .error e
       | .ok (c, rest) => .ok (.item c, rest))

/-- `Parse for Flow<TopLevel>`. -/
def flowTParse : ℕ → List Tok → Except Err (Flow TopLevel × List Tok)
  | 0, _ => .error fuelErr
  | n + 1, input =>
    match input with
    | .kw .kIf :: .kw .kLet :: _ => ifLetTParse n input
    | .kw .kIf :: _ => ifTParse n input
    | .kw .kFor :: _ => forTParse n input
    | .kw .kWhile :: .kw .kLet :: _ => whileLetTParse n input
    | .kw .kWhile :: _ => whileTParse n input
    | _ => .error (streamErr "Expected flow statement")

/-- `Parse for If<TopLevel>`. -/
def ifTParse : ℕ → List Tok → Except Err (Flow TopLevel × List Tok)
  | 0, _ => .error fuelErr
  | n + 1, input =>
    match input with
    | .kw .kIf :: rest =>
      (match exprParse rest with
       | .error e => .error e
       | .ok (cond, rest1) =>
         match rest1 with
         | .group .brace body :: rest2 =>
           (match controlTLoop n body [] with
            | .error e => .error e
            | .ok items =>
              match rest2 with
              | .kw .kElse :: rest3 =>
                (match flowTParse n rest3 with
                 | .error e => .error e
                 | .ok (f, rest4) => .ok (.fIf cond items (some f), rest4))
              | _ => .ok (.fIf cond items none, rest2))
         | _ => .error (streamErr "expected curly braces"))
    | _ => .error (streamErr "expected if keyword")

/-- `Parse for IfLet<TopLevel>`. -/
def ifLetTParse : ℕ → List Tok → Except Err (Flow TopLevel × List Tok)
  | 0, _ => .error fuelErr
  | n + 1, input =>
    match input with
    | .kw .kIf :: .kw .kLet :: rest =>
      (match patParse rest with
       | .error e => .error e
       | .ok (pat, rest1) =>
         match rest1 with
         | .punct '=' :: rest2 =>
           (match exprParse rest2 with
            | .error e => .error e
            | .ok (cond, rest3) =>
              match rest3 with
              | .group .brace body :: rest4 =>
                (match controlTLoop n body [] with
                 | .error e => .error e
                 | .ok items =>
                   match rest4 with
                   | .kw .kElse :: rest5 =>
                     (match flowTParse n rest5 with
                      | .error e => .error e
                      | .ok (f, rest6) => .ok (.fIfLet pat cond items (some f), rest6))
                   | _ => .ok (.fIfLet pat cond items none, rest4))
              | _ => .error (streamErr "expected curly braces"))
         | _ => .error (streamErr "expected assignment"))
    | _ => .error (streamErr "expected if let")

/-- `Parse for For<TopLevel>`. -/
def forTParse : ℕ → List Tok → Except Err (Flow TopLevel × List Tok)
  | 0, _ => .error fuelErr
  | n + 1, input =>
    match input with
    | .kw .kFor :: rest =>
      (match patParse rest with
       | .error e => .error e
       | .ok (pat, rest1) =>
         match rest1 with
         | .kw .kIn :: rest2 =>
           (match exprParse rest2 with
            | .error e => .error e
            | .ok (iter, rest3) =>
              match rest3 with
              | .group .brace body :: rest4 =>
                (match controlTLoop n body [] with
                 | .error e => .error e
                 | .ok items => .ok (.fFor pat iter items, rest4))
              | _ => .error (streamErr "expected curly braces"))
         | _ => .error (streamErr "expected in keyword"))
    | _ => .error (streamErr "expected for keyword")

/-- `Parse for While<TopLevel>`. -/
def whileTParse : ℕ → List Tok → Except Err (Flow TopLevel × List Tok)
  | 0, _ => .error fuelErr
  | n + 1, input =>
    match input with
    | .kw .kWhile :: rest =>
      (match exprParse rest with
       | .error e => .error e
       | .ok (cond, rest1) =>
         match rest1 with
         | .group .brace body :: rest2 =>
           (match controlTLoop n body [] with
            | .error e => .error e
            | .ok items => .ok (.fWhile cond items, rest2))
         | _ => .error (streamErr "expected curly braces"))
    | _ => .error (streamErr "expected while keyword")

/-- `Parse for WhileLet<TopLevel>`. -/
def whileLetTParse : ℕ → List Tok → Except Err (Flow TopLevel × List Tok)
  | 0, _ => .error fuelErr
  | n + 1, input =>
    match input with
    | .kw .kWhile :: .kw .kLet :: rest =>
      (match patParse rest with
       | .error e => .error e
       | .ok (pat, rest1) =>
         match rest1 with
         | .punct '=' :: rest2 =>
           (match exprParse rest2 with
            | .error e => .error e
            | .ok (cond, rest3) =>
              match rest3 with
              | .group .brace body :: rest4 =>
                (match controlTLoop n body [] with
                 | .error e => .error e
                 | .ok items => .ok (.fWhileLet pat cond items, rest4))
              | _ => .error (streamErr "expected curly braces"))
         | _ => .error (streamErr "expected assignment"))
    | _ => .error (streamErr "expected while let")

/-- Body loop of the `TopLevel`-flow constructs. -/
def controlTLoop : ℕ → List Tok → List (Control TopLevel) →
    Except Err (List (Control TopLevel))
  | 0, _, _ => .error fuelErr
  | _ + 1, [], acc => .ok acc
  | n + 1, .punct ';' :: rest, acc => controlTLoop n rest acc
  | n + 1, ts, acc =>
    match controlTParse n ts with
    | .error e => .error e
    | .ok (c, rest) => controlTLoop n rest (acc ++ [c])

/-- `Parse for Control<TopLevel>`. -/
def controlTParse : ℕ → List Tok → Except Err (Control TopLevel × List Tok)
  | 0, _ => .error fuelErr
  | n + 1, input =>
    match input with
    | .kw .kBreak :: rest => .ok (.brk, rest)
    | .kw .kContinue :: rest => .ok (.cont, rest)
    | ts =>
      (match TopLevel.parse n ts with
       | .error e => .error e
       | .ok (t, rest) => .ok (.item t, rest))

/-- Top-level loop of `Spawn::parse`: skip `;`, parse top-level items until
the input is exhausted. -/
def topLoop : ℕ → List Tok → List TopLevel → Except Err (List TopLevel)
  | 0, _, _ => .error fuelErr
  | _ + 1, [], acc => .ok acc
  | n + 1, .punct ';' :: rest, acc => topLoop n rest acc
  | n + 1, ts, acc =>
    match TopLevel.parse n ts with
    | .error e => .error e
    | .ok (t, rest) => topLoop n rest (acc ++ [t])
end

/-- `Parse for Spawner`: identifier or bracketed expression. -/
def Spawner.parse (input : List Tok) : Except Err (Spawner × List Tok) :=
  match input with
  | .ident s :: rest => .ok (.sIdent s, rest)
  | .group .bracket e :: rest => .ok (.sExpr e, rest)
  | _ => .error (streamErr "Expected identifier or expression")

/-- `Parse for Spawn`: spawner then the top-level loop (which consumes the
whole stream). -/
def Spawn.parse (fuel : ℕ) (input : List Tok) : Except Err Spawn :=
  match Spawner.parse input with
  | .error e => .error e
  | .ok (sp, rest) =>
    match topLoop fuel rest [] with
    | .error e => .error e
    | .ok tls => .ok ⟨sp, tls⟩

/-! ## `spawn.rs` — code generation -/

/-- `Generate for Spawner`. -/
def Spawner.generate : Spawner → List Tok
  | .sIdent s =>
    [ .kw .kLet, .ident "spawner", .punct '=', .punct '&', .kw .kMut,
      .ident s, .punct ';']
  | .sExpr e =>
    [ .kw .kLet, .kw .kMut, .ident "spawner", .punct '=', .group .paren e,
      .punct ';', .kw .kLet, .ident "spawner", .punct '=', .punct '&',
      .kw .kMut, .ident "spawner", .punct ';']

/-- Argument expressions joined by commas (`#(#args),*`). -/
def joinComma : List (List Tok) → List Tok
  | [] => []
  | [a] => a
  | a :: rest => a ++ [Tok.punct ','] ++ joinComma rest

/-- `Generate for Extension` (with `Generate for MethodCall` inlined). -/
def Extension.generate : Extension → List Tok
  | .observe arg =>
    [ .ident "entity", .punct '.', .ident "observe", .group .paren arg,
      .punct ';']
  | .methodCall nm args =>
    [ .ident "entity", .punct '.', .ident nm, .group .paren (joinComma args),
      .punct ';']
  | .codeBlock blk =>
    [ .group .brace
        ([ .kw .kLet, .kw .kMut, .ident "entity", .punct '=', .ident "entity",
           .punct '.', .ident "reborrow", .group .paren [], .punct ';'] ++
         [ .group .brace blk])]
  | .unfinished nm =>
    .punct '.' :: (match nm with | some s => [Tok.ident s] | none => [])

/-- Extension-list accumulation (`for ext in extensions { content.extend }`). -/
def extListGen (acc : List Tok) : List Extension → List Tok
  | [] => acc
  | e :: es => extListGen (acc ++ Extension.generate e) es

/-- Construction header of `Entity::generate`: `let mut entity =
spawner.spawn((components)); let this = entity.id();`. -/
def entityConstruct (comps : List Tok) : List Tok :=
  [ .kw .kLet, .kw .kMut, .ident "entity", .punct '=', .ident "spawner",
    .punct '.', .ident "spawn", .group .paren [ .group .paren comps],
    .punct ';', .kw .kLet, .ident "this", .punct '=', .ident "entity",
    .punct '.', .ident "id", .group .paren [], .punct ';']

/-- `entity.set_parent(parent);` of `Parented::generate`. -/
def setParentToks (parent : String) : List Tok :=
  [ .ident "entity", .punct '.', .ident "set_parent",
    .group .paren [ .ident parent], .punct ';']

/-- Insertion header of `Inserted::generate`. -/
def insertedConstruct (base : String) (comps : List Tok) : List Tok :=
  [ .kw .kLet, .kw .kMut, .ident "entity", .punct '=', .ident "spawner",
    .punct '.', .ident "entity", .group .paren [ .ident base], .punct ';',
    .kw .kLet, .kw .kMut, .ident "entity", .punct '=', .ident "entity",
    .punct '.', .ident "insert", .group .paren [ .group .paren comps],
    .punct ';', .kw .kLet, .ident "this", .punct '=', .ident "entity",
    .punct '.', .ident "id", .group .paren [], .punct ';']

/-- Optional `let name =` naming prefix. -/
def namingToks : Option String → List Tok
  | none => []
  | some s => [ .kw .kLet, .ident s, .punct '=']

/-- The `#[allow(irrefutable_let_patterns)]` attribute emitted by
`Flow::gen_irrefutable` and `WhileLet::generate`. -/
def allowIrrefutable : List Tok :=
  [ .punct '#',
    .group .bracket [ .ident "allow", .group .paren [ .ident "irrefutable_let_patterns"]]]

/-- Whether an `else` target continues the conditional chain
(`matches!(**else_, Flow::If(_) | Flow::IfLet(_))`). -/
def isIfFamily {T : Type} : Flow T → Bool
  | .fIf _ _ _ => true
  | .fIfLet _ _ _ _ => true
  | _ => false

mutual
/-- `Generate for Entity`. -/
def Entity.generate : Entity → List Tok
  | .mk nm d => entityBodyGen nm d

/-- Body of `Entity::generate`: construction, then each extension in source
order, then each children group in source order, braced with a final `this`,
under the optional naming prefix. -/
def entityBodyGen (nm : Option String) : Definition → List Tok
  | .mk comps exts chs =>
    namingToks nm ++
    [ .group .brace
        (childrenListGen (extListGen (entityConstruct comps) exts) chs ++
         [ .ident "this"]),
      .punct ';']

/-- `Generate for Parented`. -/
def Parented.generate : Parented → List Tok
  | .mk parent en => parentedBodyGen parent en

/-- Body of `Parented::generate`: like `Entity` but with `set_parent`
immediately after construction. -/
def parentedBodyGen (parent : String) : Entity → List Tok
  | .mk nm (.mk comps exts chs) =>
    namingToks nm ++
    [ .group .brace
        (childrenListGen
          (extListGen (entityConstruct comps ++ setParentToks parent) exts) chs ++
         [ .ident "this"]),
      .punct ';']

/-- `Generate for Inserted` (no naming; no trailing `this` exposure). -/
def Inserted.generate : Inserted → List Tok
  | .mk base (.mk comps exts chs) =>
    [ .group .brace
        (childrenListGen (extListGen (insertedConstruct base comps) exts) chs),
      .punct ';']

/-- `Generate for Children`: a braced block binding `parent := this`, then
each child in source order. -/
def Children.generate : Children → List Tok
  | .mk cs =>
    [ .group .brace
        (childListGen
          [ .kw .kLet, .ident "parent", .punct '=', .ident "this", .punct ';']
          cs),
      .punct ';']

/-- Children-group accumulation (`for group in children { content.extend }`). -/
def childrenListGen (acc : List Tok) : List Children → List Tok
  | [] => acc
  | g :: gs => childrenListGen (acc ++ Children.generate g) gs

/-- Child accumulation inside one group (`for child in children { extend }`). -/
def childListGen (acc : List Tok) : List Child → List Tok
  | [] => acc
  | c :: cs => childListGen (acc ++ Child.generate c) cs

/-- `Generate for Child`: bare entities take the `Parented` path with the
implicit `parent` binding. -/
def Child.generate : Child → List Tok
  | .entity e => parentedBodyGen "parent" e
  | .inserted i => Inserted.generate i
  | .flow f => allowIrrefutable ++ flowCGen f
  | .codeBlock blk => [ .group .brace blk]

/-- `Generate for TopLevel`. -/
def TopLevel.generate : TopLevel → List Tok
  | .entity e => Entity.generate e
  | .parented p => Parented.generate p
  | .inserted i => Inserted.generate i
  | .flow f => allowIrrefutable ++ flowTGen f
  | .codeBlock blk => [ .group .brace blk]

/-- `Generate for Flow<Child>` and the five construct generators. -/
def flowCGen : Flow Child → List Tok
  | .fIf cond body els =>
    [ .kw .kIf] ++ cond ++ [ .group .brace (controlCListGen [] body)] ++ elseCGen els
  | .fIfLet pat cond body els =>
    [ .kw .kIf, .kw .kLet] ++ pat ++ [ .punct '='] ++ cond ++
      [ .group .brace (controlCListGen [] body)] ++ elseCGen els
  | .fFor pat iter body =>
    [ .kw .kFor] ++ pat ++ [ .kw .kIn] ++ iter ++
      [ .group .brace (controlCListGen [] body)]
  | .fWhile cond body =>
    [ .kw .kWhile] ++ cond ++ [ .group .brace (controlCListGen [] body)]
  | .fWhileLet pat cond body =>
    allowIrrefutable ++ [ .kw .kWhile, .kw .kLet] ++ pat ++ [ .punct '='] ++
      cond ++ [ .group .brace (controlCListGen [] body)]

/-- The `else` clause: an `if`-family target chains bare, a terminal flow is
wrapped in braces. -/
def elseCGen : Option (Flow Child) → List Tok
  | none => []
  | some f =>
    if isIfFamily f then [Tok.kw .kElse] ++ flowCGen f
    else [Tok.kw .kElse, .group .brace (flowCGen f)]

/-- Flow-body accumulation for `Child` items. -/
def controlCListGen (acc : List Tok) : List (Control Child) → List Tok
  | [] => acc
  | c :: cs => controlCListGen (acc ++ controlCGen c) cs

/-- `Generate for Control<Child>`. -/
def controlCGen : Control Child → List Tok
  | .brk => [ .kw .kBreak, .punct ';']
  | .cont => [ .kw .kContinue, .punct ';']
  | .item t => Child.generate t

/-- `Generate for Flow<TopLevel>`. -/
def flowTGen : Flow TopLevel → List Tok
  | .fIf cond body els =>
    [ .kw .kIf] ++ cond ++ [ .group .brace (controlTListGen [] body)] ++ elseTGen els
  | .fIfLet pat cond body els =>
    [ .kw .kIf, .kw .kLet] ++ pat ++ [ .punct '='] ++ cond ++
      [ .group .brace (controlTListGen [] body)] ++ elseTGen els
  | .fFor pat iter body =>
    [ .kw .kFor] ++ pat ++ [ .kw .kIn] ++ iter ++
      [ .group .brace (controlTListGen [] body)]
  | .fWhile cond body =>
    [ .kw .kWhile] ++ cond ++ [ .group .brace (controlTListGen [] body)]
  | .fWhileLet pat cond body =>
    allowIrrefutable ++ [ .kw .kWhile, .kw .kLet] ++ pat ++ [ .punct '='] ++
      cond ++ [ .group .brace (controlTListGen [] body)]

/-- The `else` clause for `TopLevel` flows. -/
def elseTGen : Option (Flow TopLevel) → List Tok
  | none => []
  | some f =>
    if isIfFamily f then [Tok.kw .kElse] ++ flowTGen f
    else [Tok.kw .kElse, .group .brace (flowTGen f)]

/-- Flow-body accumulation for `TopLevel` items. -/
def controlTListGen (acc : List Tok) : List (Control TopLevel) → List Tok
  | [] => acc
  | c :: cs => controlTListGen (acc ++ controlTGen c) cs

/-- `Generate for Control<TopLevel>`. -/
def controlTGen : Control TopLevel → List Tok
  | .brk => [ .kw .kBreak, .punct ';']
  | .cont => [ .kw .kContinue, .punct ';']
  | .item t => TopLevel.generate t
end

/-- Top-level accumulation of `Spawn::generate`
(`for e in top_level { content.extend }`). -/
def topListGen (acc : List Tok) : List TopLevel → List Tok
  | [] => acc
  | t :: ts => topListGen (acc ++ TopLevel.generate t) ts

/-- `Generate for Spawn`: the spawner binding then the top-level items, in one
braced statement. -/
def Spawn.generate (s : Spawn) : List Tok :=
  [ .group .brace (topListGen (Spawner.generate s.spawner) s.top_level),
    .punct ';']

mutual
/-- Structural size of a token tree, used only to pick a generous fuel bound
for a whole macro invocation. -/
def tokSize : Tok → ℕ
  | .group _ ts => 1 + tokListSize ts
  | _ => 1
/-- Structural size of a token list. -/
def tokListSize : List Tok → ℕ
  | [] => 0
  | t :: ts => tokSize t + tokListSize ts
end

/-- The `spawn` entry point of `lib.rs` (`allow_empty`).  The fuel bound is
irrelevant to the claims (which state parser facts with explicit fuel); the
token size dominates the recursion depth of the parser on any input it
accepts. -/
def spawnMacro (input : List Tok) : Except Err (List Tok) :=
  applyMacro (fun ts =>
    match Spawn.parse (2 * tokListSize ts + 2) ts with
    | .error e => .error e
    | .ok s => .ok (Spawn.generate s)) true input

/-! ## Claims C2, C3, C5, C10 — the spawn DSL -/

/-- Claim C2, counterexample: for `(X).[].observe(cb)` (an extension after a
children group) the parser does fail hard, but with the source's message
"Extensions cannot be chained after children group", which differs from the
claimed message text "extensions cannot be chained after a children group". -/
theorem extension_after_children_message_differs :
    Definition.parse 20
        [ .group .paren [ .ident "X"], .punct '.', .group .bracket [],
          .punct '.', .ident "observe", .group .paren [ .ident "cb"]] =
      .error (streamErr "Extensions cannot be chained after children group") ∧
    "Extensions cannot be chained after children group" ≠
      "extensions cannot be chained after a children group" :=
  ⟨by rfl, by decide⟩

/-- Claim C2 (amended): once `Definition::parse` has moved to its children
loop (which it enters only with either no leading `.` or a `.[` children
group ahead, so the loop's error arm is reachable only after a group has been
consumed), any `.` not followed by `[` — including a trailing bare `.` — is
the hard error "Extensions cannot be chained after children group" (message
as written in the source); the reverse order `(X).observe(cb).[]` parses
successfully. -/
theorem extension_after_children_rejected :
    (∀ n acc t rest, (∀ cs, t ≠ .group .bracket cs) →
      childrenLoop (n + 1) (.punct '.' :: t :: rest) acc =
        .error (streamErr "Extensions cannot be chained after children group")) ∧
    (∀ n acc, childrenLoop (n + 1) [ .punct '.'] acc =
        .error (streamErr "Extensions cannot be chained after children group")) ∧
    Definition.parse 20
        [ .group .paren [ .ident "X"], .punct '.', .ident "observe",
          .group .paren [ .ident "cb"], .punct '.', .group .bracket []] =
      .ok (.mk [ .ident "X"] [ .methodCall "observe" [[ .ident "cb"]]] [ .mk []],
        []) := by
  refine ⟨?_, ?_, by rfl⟩
  · intro n acc t rest h
    cases t with
    | group d ts =>
      cases d with
      | bracket => exact absurd rfl (h ts)
      | paren => rfl
      | brace => rfl
    | ident s => rfl
    | kw k => rfl
    | litInt a b => rfl
    | litFloat a b => rfl
    | litStr s => rfl
    | punct c => rfl
  · intro n acc
    rfl

/-- Claim C2, witness for the loop-level conjunct: `. observe` directly after
a consumed children group. -/
theorem extension_after_children_rejected_witness :
    childrenLoop 5 [ .punct '.', .ident "observe"] [] =
      .error (streamErr "Extensions cannot be chained after children group") :=
  extension_after_children_rejected.1 4 [] (.ident "observe") []
    (fun cs => by simp)

/-- Claim C3, counterexample: `parent > child (Button)` at child position
does fail hard, but with the source's message "Parented is not allowed as a
child", which differs from the claimed message text "parented is not allowed
as a child". -/
theorem parented_child_message_differs :
    Child.parse 20
        [ .ident "parent", .punct '>', .ident "child",
          .group .paren [ .ident "Button"]] =
      .error (streamErr "Parented is not allowed as a child") ∧
    "Parented is not allowed as a child" ≠ "parented is not allowed as a child" :=
  ⟨by rfl, by decide⟩

/-- Claim C3 (amended): at child position, every `name > ...` token sequence
fails with the source's message "Parented is not allowed as a child" (the
claim quotes it uncapitalized); at top level the identical sequence parses
successfully as a `Parented` node whenever its tail parses as an entity, as
the concrete `parent > child (Button)` illustrates. -/
theorem parented_only_top_level :
    (∀ n nm rest, Child.parse (n + 1) (.ident nm :: .punct '>' :: rest) =
      .error (streamErr "Parented is not allowed as a child")) ∧
    (∀ n nm ts e rest, Entity.parse n ts = .ok (e, rest) →
      TopLevel.parse (n + 2) (.ident nm :: .punct '>' :: ts) =
        .ok (.parented (.mk nm e), rest)) ∧
    TopLevel.parse 20
        [ .ident "parent", .punct '>', .ident "child",
          .group .paren [ .ident "Button"]] =
      .ok (.parented (.mk "parent"
        (.mk (some "child") (.mk [ .ident "Button"] [] []))), []) := by
  refine ⟨?_, ?_, by rfl⟩
  · intro n nm rest
    rfl
  · intro n nm ts e rest h
    simp [TopLevel.parse, Parented.parse, h]

/-- Claim C3, witness for the top-level conjunct: `my > (Node)`. -/
theorem parented_only_top_level_witness :
    TopLevel.parse 7 [ .ident "my", .punct '>', .group .paren [ .ident "Node"]] =
      .ok (.parented (.mk "my" (.mk none (.mk [ .ident "Node"] [] []))), []) :=
  parented_only_top_level.2.1 5 "my" [ .group .paren [ .ident "Node"]]
    (.mk none (.mk [ .ident "Node"] [] [])) [] (by rfl)

theorem extListGen_eq (es : List Extension) (acc : List Tok) :
    extListGen acc es = acc ++ (es.map Extension.generate).flatten := by
  induction es generalizing acc with
  | nil => simp [extListGen]
  | cons e es ih => simp [extListGen, ih]

theorem childrenListGen_eq (gs : List Children) (acc : List Tok) :
    childrenListGen acc gs = acc ++ (gs.map Children.generate).flatten := by
  induction gs generalizing acc with
  | nil => simp [childrenListGen]
  | cons g gs ih => simp [childrenListGen, ih]

theorem childListGen_eq (cs : List Child) (acc : List Tok) :
    childListGen acc cs = acc ++ (cs.map Child.generate).flatten := by
  induction cs generalizing acc with
  | nil => simp [childListGen]
  | cons c cs ih => simp [childListGen, ih]

theorem topListGen_eq (ts : List TopLevel) (acc : List Tok) :
    topListGen acc ts = acc ++ (ts.map TopLevel.generate).flatten := by
  induction ts generalizing acc with
  | nil => simp [topListGen]
  | cons t ts ih => simp [topListGen, ih]

/-- Claim C5: generation order equals source order — the whole expansion is
the spawner binding followed by each top-level item's code in source order
(inside the one braced statement `Spawn::generate` emits); an entity's block
is its construction call first, then each extension's code in source order,
then each children group's code in source order; and a children group is the
implicit `parent` binding followed by each child's code in source order. -/
theorem generation_follows_source_order :
    (∀ s : Spawn, Spawn.generate s =
      [ .group .brace (Spawner.generate s.spawner ++
          (s.top_level.map TopLevel.generate).flatten), .punct ';']) ∧
    (∀ nm comps exts chs, Entity.generate (.mk nm (.mk comps exts chs)) =
      namingToks nm ++
      [ .group .brace (entityConstruct comps ++
          (exts.map Extension.generate).flatten ++
          (chs.map Children.generate).flatten ++ [ .ident "this"]),
        .punct ';']) ∧
    (∀ cs, Children.generate (.mk cs) =
      [ .group .brace
          ([ .kw .kLet, .ident "parent", .punct '=', .ident "this",
             .punct ';'] ++ (cs.map Child.generate).flatten),
        .punct ';']) := by
  refine ⟨?_, ?_, ?_⟩
  · intro s
    rw [Spawn.generate, topListGen_eq]
  · intro nm comps exts chs
    simp [Entity.generate, entityBodyGen, extListGen_eq, childrenListGen_eq]
  · intro cs
    simp [Children.generate, childListGen_eq]

/-- Claim C10: the completely empty invocation — `spawn` expands to the empty
stream without error; `v`, `c` and `e` each produce the call-site-anchored
compile error "This macro can\x27t be called without any input". -/
theorem empty_input_entry_points :
    spawnMacro [] = .ok [] ∧
    vMacro [] =
      .error ⟨ .callSite, "This macro can\x27t be called without any input"⟩ ∧
    cMacro [] =
      .error ⟨ .callSite, "This macro can\x27t be called without any input"⟩ ∧
    eMacro [] =
      .error ⟨ .callSite, "This macro can\x27t be called without any input"⟩ :=
  ⟨rfl, rfl, rfl, rfl⟩

end BevyToolbox
